import Mathlib

/-!
# Student management system: the SQLite connection wrapper

A shallow embedding of `src/core/database.h` / `src/core/database.cpp`:
the `Database` connection class and the `Transaction` scope guard.

The SQLite library is an external collaborator.  It is represented by a record
of functions (`Engine`) over an arbitrary state type `E`; every call the wrapper
makes to the library, and every invocation of a row callback, is appended to a
trace so that "which calls were made, in which order" can be stated.
-/

namespace StudentDb

/-! ## The engine interface -/

abbrev SQLITE_OK : Int := 0
abbrev SQLITE_ROW : Int := 100
abbrev SQLITE_DONE : Int := 101

/-- A `sqlite3*`; `none` is the null pointer. -/
abbrev DbHandle := Option Nat

/-- A `sqlite3_stmt*`; `none` is the null pointer. -/
abbrev StmtHandle := Option Nat

/-- One observable action of the wrapper: a call into the SQLite C API, or an
invocation of the caller's row callback. -/
inductive Call where
  | sqlite3_open (path : String)
  | sqlite3_close (db : DbHandle)
  | sqlite3_errmsg (db : DbHandle)
  | sqlite3_exec (db : DbHandle) (sql : String)
  | sqlite3_free
  | sqlite3_prepare_v2 (db : DbHandle) (sql : String)
  | sqlite3_bind_text (stmt : StmtHandle) (pos : Nat) (value : String)
  | sqlite3_step (stmt : StmtHandle)
  | sqlite3_finalize (stmt : StmtHandle)
  | sqlite3_last_insert_rowid (db : DbHandle)
  | sqlite3_changes (db : DbHandle)
  | callback (stmt : StmtHandle)
  deriving DecidableEq, Repr

structure OpenResult (E : Type) where
  rc : Int
  db : DbHandle
  eng : E

structure ExecResult (E : Type) where
  rc : Int
  errMsg : String
  eng : E

structure PrepareResult (E : Type) where
  rc : Int
  stmt : StmtHandle
  eng : E

structure RcResult (E : Type) where
  rc : Int
  eng : E

/-- What a row callback did: it either returned (`thrown = none`) or threw. -/
structure CallbackResult (E : Type) where
  thrown : Option String
  eng : E

/-- The part of the SQLite C API that `database.cpp` uses.  `E` is the state of
everything outside the wrapper (the library and whatever a row callback
captures). -/
structure Engine (E : Type) where
  sqlite3_open : String → E → OpenResult E
  sqlite3_close : DbHandle → E → E
  sqlite3_errmsg : DbHandle → E → String
  sqlite3_exec : DbHandle → String → E → ExecResult E
  sqlite3_prepare_v2 : DbHandle → String → E → PrepareResult E
  sqlite3_bind_text : StmtHandle → Nat → String → E → RcResult E
  sqlite3_step : StmtHandle → E → RcResult E
  sqlite3_finalize : StmtHandle → E → E
  sqlite3_last_insert_rowid : DbHandle → E → Int
  sqlite3_changes : DbHandle → E → Int

/-- A `std::function<void(sqlite3_stmt*)>`: it sees the statement positioned on
the current row and may throw. -/
abbrev Callback (E : Type) := StmtHandle → E → CallbackResult E

/-- Engine state together with the trace of calls made so far. -/
structure World (E : Type) where
  eng : E
  trace : List Call

/-- Record one call and the engine state it leaves. -/
def World.call {E : Type} (w : World E) (c : Call) (e : E) : World E :=
  { eng := e, trace := w.trace ++ [c] }

/-! ## Exceptions -/

/-- What can leave a wrapper method by `throw`: a `DatabaseException` raised by
the wrapper itself, or whatever a row callback threw, which the wrapper neither
catches nor inspects. -/
inductive Exn where
  | DatabaseException (what : String)
  | fromCallback (what : String)
  deriving DecidableEq, Repr

deriving instance DecidableEq for Except

/-- `static_cast<int>` of a 64-bit value: reduction into the signed 32-bit range. -/
def castToInt (x : Int) : Int :=
  (x + 2147483648) % 4294967296 - 2147483648

/-- What the engine reads from `s.c_str()` when no length is passed: the
characters before the first NUL. -/
def cStr (s : String) : String :=
  String.mk (s.data.takeWhile (fun c => c.toNat != 0))

/-! ## class Database -/

/-- The data members of `class Database`. -/
structure Database where
  db : DbHandle
  dbPath : String
  isOpen : Bool
  deriving DecidableEq, Repr

/-- Result of a member function: what it returned or threw, the object's data
members afterwards, and the world afterwards. -/
structure Ret (E : Type) (α : Type) where
  out : α
  self : Database
  world : World E

/-- `Database::open` (database.cpp 31-44); the path goes to the engine as
`dbPath.c_str()`. -/
def Database.open_ {E : Type} (api : Engine E) (self : Database) (w : World E) :
    Ret E (Except Exn Unit) :=
  if self.isOpen then
    ⟨.ok (), self, w⟩
  else
    let r := api.sqlite3_open (cStr self.dbPath) w.eng
    let w1 := w.call (.sqlite3_open (cStr self.dbPath)) r.eng
    if r.rc ≠ SQLITE_OK then
      let error := api.sqlite3_errmsg r.db w1.eng
      let w2 := w1.call (.sqlite3_errmsg r.db) w1.eng
      let w3 := w2.call (.sqlite3_close r.db) (api.sqlite3_close r.db w2.eng)
      ⟨.error (.DatabaseException ("Cannot open database: " ++ error)),
        { self with db := none }, w3⟩
    else
      ⟨.ok (), { self with db := r.db, isOpen := true }, w1⟩

/-- `Database::Database(const std::string&)` (database.cpp 4-7).  When `open`
throws, `self` holds the members as they were at the throw. -/
def Database.ctor {E : Type} (api : Engine E) (path : String) (w : World E) :
    Ret E (Except Exn Unit) :=
  Database.open_ api { db := none, dbPath := path, isOpen := false } w

/-- `Database::close` (database.cpp 46-52). -/
def Database.close {E : Type} (api : Engine E) (self : Database) (w : World E) :
    Database × World E :=
  if self.db.isSome && self.isOpen then
    ({ self with db := none, isOpen := false },
      w.call (.sqlite3_close self.db) (api.sqlite3_close self.db w.eng))
  else
    (self, w)

/-- `Database::~Database` (database.cpp 9-11). -/
def Database.dtor {E : Type} (api : Engine E) (self : Database) (w : World E) :
    Database × World E :=
  Database.close api self w

/-- `Database::Database(Database&&)` (database.cpp 13-17): the new object and
the moved-from source.  `residue` is the unspecified content `std::move` leaves
in the source's path string. -/
def Database.moveCtor (other : Database) (residue : String) : Database × Database :=
  ({ db := other.db, dbPath := other.dbPath, isOpen := other.isOpen },
    { db := none, dbPath := residue, isOpen := false })

/-- `Database::operator=(Database&&)` (database.cpp 19-29).  `other = none`
stands for self-assignment (`this == &other`); the result is the destination,
the source (absent on self-assignment) and the world. -/
def Database.moveAssign {E : Type} (api : Engine E) (self : Database)
    (other : Option Database) (residue : String) (w : World E) :
    Database × Option Database × World E :=
  match other with
  | none => (self, none, w)
  | some o =>
    let c := Database.close api self w
    ({ db := o.db, dbPath := o.dbPath, isOpen := o.isOpen },
      some { db := none, dbPath := residue, isOpen := false }, c.2)

/-- `Database::checkOpen` (database.cpp 54-58). -/
def Database.checkOpen (self : Database) : Except Exn Unit :=
  if !self.isOpen || self.db.isNone then
    .error (.DatabaseException "Database is not open")
  else
    .ok ()

/-- `Database::execute` (database.cpp 60-71); the statement goes to the engine
as `sql.c_str()`. -/
def Database.execute {E : Type} (api : Engine E) (self : Database) (sql : String)
    (w : World E) : Ret E (Except Exn Unit) :=
  match self.checkOpen with
  | .error x => ⟨.error x, self, w⟩
  | .ok () =>
    let r := api.sqlite3_exec self.db (cStr sql) w.eng
    let w1 := w.call (.sqlite3_exec self.db (cStr sql)) r.eng
    if r.rc ≠ SQLITE_OK then
      let error := r.errMsg
      let w2 := w1.call .sqlite3_free w1.eng
      ⟨.error (.DatabaseException ("SQL execution error: " ++ error)), self, w2⟩
    else
      ⟨.ok (), self, w1⟩

/-- The bind loop of `executeWithParams` / `queryWithParams` (database.cpp
86-93, 142-149) from index `i` on: `params[i].c_str()` is bound as text, with
no length given, at position `i + 1`.  Returns the status that ended the loop
(`SQLITE_OK` when every bind succeeded, otherwise the first failing status).  The position is kept as a
natural number: the C `int` argument holds it unchanged for every parameter
vector of fewer than 2^31 entries. -/
def bindLoop {E : Type} (api : Engine E) (stmt : StmtHandle) :
    Nat → List String → World E → Int × World E
  | _, [], w => (SQLITE_OK, w)
  | i, p :: ps, w =>
    let r := api.sqlite3_bind_text stmt (i + 1) (cStr p) w.eng
    let w1 := w.call (.sqlite3_bind_text stmt (i + 1) (cStr p)) r.eng
    if r.rc ≠ SQLITE_OK then (r.rc, w1) else bindLoop api stmt (i + 1) ps w1

/-- `Database::executeWithParams` (database.cpp 73-102); the statement is
prepared from `sql.c_str()` with length -1. -/
def Database.executeWithParams {E : Type} (api : Engine E) (self : Database)
    (sql : String) (params : List String) (w : World E) : Ret E (Except Exn Unit) :=
  match self.checkOpen with
  | .error x => ⟨.error x, self, w⟩
  | .ok () =>
    let r := api.sqlite3_prepare_v2 self.db (cStr sql) w.eng
    let w1 := w.call (.sqlite3_prepare_v2 self.db (cStr sql)) r.eng
    if r.rc ≠ SQLITE_OK then
      let w2 := w1.call (.sqlite3_errmsg self.db) w1.eng
      ⟨.error (.DatabaseException
        ("Failed to prepare statement: " ++ api.sqlite3_errmsg self.db w1.eng)), self, w2⟩
    else
      let b := bindLoop api r.stmt 0 params w1
      if b.1 ≠ SQLITE_OK then
        let w2 := b.2.call (.sqlite3_finalize r.stmt) (api.sqlite3_finalize r.stmt b.2.eng)
        let w3 := w2.call (.sqlite3_errmsg self.db) w2.eng
        ⟨.error (.DatabaseException
          ("Failed to bind parameter: " ++ api.sqlite3_errmsg self.db w2.eng)), self, w3⟩
      else
        let s := api.sqlite3_step r.stmt b.2.eng
        let w2 := b.2.call (.sqlite3_step r.stmt) s.eng
        let w3 := w2.call (.sqlite3_finalize r.stmt) (api.sqlite3_finalize r.stmt w2.eng)
        if s.rc ≠ SQLITE_DONE then
          let w4 := w3.call (.sqlite3_errmsg self.db) w3.eng
          ⟨.error (.DatabaseException
            ("Execution failed: " ++ api.sqlite3_errmsg self.db w3.eng)), self, w4⟩
        else
          ⟨.ok (), self, w3⟩

/-- How the row loop `while ((rc = sqlite3_step(stmt)) == SQLITE_ROW) callback(stmt);`
ended: with a status other than `SQLITE_ROW`, or by an exception from the callback. -/
inductive LoopExit where
  | status (rc : Int)
  | threw (what : String)
  deriving DecidableEq, Repr

/-- The row loop of `query` / `queryWithParams` (database.cpp 116-118, 151-153).
The loop has no bound of its own, so the model counts iterations down from
`fuel`; `none` means the fuel ran out before the loop ended. -/
def rowLoop {E : Type} (api : Engine E) (callback : Callback E) (stmt : StmtHandle) :
    Nat → World E → Option LoopExit × World E
  | 0, w => (none, w)
  | fuel + 1, w =>
    let s := api.sqlite3_step stmt w.eng
    let w1 := w.call (.sqlite3_step stmt) s.eng
    if s.rc = SQLITE_ROW then
      let c := callback stmt w1.eng
      let w2 := w1.call (.callback stmt) c.eng
      match c.thrown with
      | some x => (some (.threw x), w2)
      | none => rowLoop api callback stmt fuel w2
    else
      (some (.status s.rc), w1)

/-- The code after the bind phase that `query` and `queryWithParams` share
(database.cpp 116-125, 151-160): row loop, finalize, status check. -/
def finishQuery {E : Type} (api : Engine E) (self : Database) (callback : Callback E)
    (stmt : StmtHandle) (fuel : Nat) (w : World E) : Ret E (Option (Except Exn Unit)) :=
  let l := rowLoop api callback stmt fuel w
  match l.1 with
  | none => ⟨none, self, l.2⟩
  | some (.threw x) => ⟨some (.error (.fromCallback x)), self, l.2⟩
  | some (.status rc) =>
    let w2 := l.2.call (.sqlite3_finalize stmt) (api.sqlite3_finalize stmt l.2.eng)
    if rc ≠ SQLITE_DONE then
      let w3 := w2.call (.sqlite3_errmsg self.db) w2.eng
      ⟨some (.error (.DatabaseException
        ("Query execution failed: " ++ api.sqlite3_errmsg self.db w2.eng))), self, w3⟩
    else
      ⟨some (.ok ()), self, w2⟩

/-- `Database::query` (database.cpp 104-126).  `out = none` means the row loop
did not end within `fuel` iterations. -/
def Database.query {E : Type} (api : Engine E) (self : Database) (sql : String)
    (callback : Callback E) (fuel : Nat) (w : World E) :
    Ret E (Option (Except Exn Unit)) :=
  match self.checkOpen with
  | .error x => ⟨some (.error x), self, w⟩
  | .ok () =>
    let r := api.sqlite3_prepare_v2 self.db (cStr sql) w.eng
    let w1 := w.call (.sqlite3_prepare_v2 self.db (cStr sql)) r.eng
    if r.rc ≠ SQLITE_OK then
      let w2 := w1.call (.sqlite3_errmsg self.db) w1.eng
      ⟨some (.error (.DatabaseException
        ("Failed to prepare statement: " ++ api.sqlite3_errmsg self.db w1.eng))), self, w2⟩
    else
      finishQuery api self callback r.stmt fuel w1

/-- `Database::queryWithParams` (database.cpp 128-161). -/
def Database.queryWithParams {E : Type} (api : Engine E) (self : Database)
    (sql : String) (params : List String) (callback : Callback E) (fuel : Nat)
    (w : World E) : Ret E (Option (Except Exn Unit)) :=
  match self.checkOpen with
  | .error x => ⟨some (.error x), self, w⟩
  | .ok () =>
    let r := api.sqlite3_prepare_v2 self.db (cStr sql) w.eng
    let w1 := w.call (.sqlite3_prepare_v2 self.db (cStr sql)) r.eng
    if r.rc ≠ SQLITE_OK then
      let w2 := w1.call (.sqlite3_errmsg self.db) w1.eng
      ⟨some (.error (.DatabaseException
        ("Failed to prepare statement: " ++ api.sqlite3_errmsg self.db w1.eng))), self, w2⟩
    else
      let b := bindLoop api r.stmt 0 params w1
      if b.1 ≠ SQLITE_OK then
        let w2 := b.2.call (.sqlite3_finalize r.stmt) (api.sqlite3_finalize r.stmt b.2.eng)
        let w3 := w2.call (.sqlite3_errmsg self.db) w2.eng
        ⟨some (.error (.DatabaseException
          ("Failed to bind parameter: " ++ api.sqlite3_errmsg self.db w2.eng))), self, w3⟩
      else
        finishQuery api self callback r.stmt fuel b.2

/-- `Database::beginTransaction` (database.cpp 163-165). -/
def Database.beginTransaction {E : Type} (api : Engine E) (self : Database)
    (w : World E) : Ret E (Except Exn Unit) :=
  Database.execute api self "BEGIN TRANSACTION;" w

/-- `Database::commit` (database.cpp 167-169). -/
def Database.commit {E : Type} (api : Engine E) (self : Database) (w : World E) :
    Ret E (Except Exn Unit) :=
  Database.execute api self "COMMIT;" w

/-- `Database::rollback` (database.cpp 171-173). -/
def Database.rollback {E : Type} (api : Engine E) (self : Database) (w : World E) :
    Ret E (Except Exn Unit) :=
  Database.execute api self "ROLLBACK;" w

/-- `Database::getLastInsertId` (database.cpp 175-178): the engine's
`sqlite3_int64` is narrowed with `static_cast<int>`. -/
def Database.getLastInsertId {E : Type} (api : Engine E) (self : Database)
    (w : World E) : Ret E (Except Exn Int) :=
  match self.checkOpen with
  | .error x => ⟨.error x, self, w⟩
  | .ok () =>
    ⟨.ok (castToInt (api.sqlite3_last_insert_rowid self.db w.eng)), self,
      w.call (.sqlite3_last_insert_rowid self.db) w.eng⟩

/-- `Database::getChangesCount` (database.cpp 180-183). -/
def Database.getChangesCount {E : Type} (api : Engine E) (self : Database)
    (w : World E) : Ret E (Except Exn Int) :=
  match self.checkOpen with
  | .error x => ⟨.error x, self, w⟩
  | .ok () =>
    ⟨.ok (api.sqlite3_changes self.db w.eng), self,
      w.call (.sqlite3_changes self.db) w.eng⟩

/-- `Database::getErrorMessage` (database.cpp 185-190). -/
def Database.getErrorMessage {E : Type} (api : Engine E) (self : Database)
    (w : World E) : Ret E String :=
  if self.db.isSome then
    ⟨api.sqlite3_errmsg self.db w.eng, self, w.call (.sqlite3_errmsg self.db) w.eng⟩
  else
    ⟨"Database not initialized", self, w⟩

/-! ## class Transaction -/

/-- The data member `committed` of `class Transaction`; the member
`Database& db` is the `Database` passed alongside. -/
structure Transaction where
  committed : Bool
  deriving DecidableEq, Repr

/-- Result of a `Transaction` member function. -/
structure TxRet (E : Type) (α : Type) where
  out : α
  tx : Transaction
  db : Database
  world : World E

/-- `Transaction::Transaction(Database&)` (database.cpp 193-196).  When
`beginTransaction` throws no object comes to exist; `out` is then the exception. -/
def Transaction.ctor {E : Type} (api : Engine E) (database : Database) (w : World E) :
    TxRet E (Except Exn Unit) :=
  let r := Database.beginTransaction api database w
  match r.out with
  | .error x => ⟨.error x, { committed := false }, r.self, r.world⟩
  | .ok () => ⟨.ok (), { committed := false }, r.self, r.world⟩

/-- `Transaction::~Transaction` (database.cpp 198-206). -/
def Transaction.dtor {E : Type} (api : Engine E) (self : Transaction) (db : Database)
    (w : World E) : TxRet E (Except Exn Unit) :=
  if !self.committed then
    let r := Database.rollback api db w
    match r.out with
    | .error _ => ⟨.ok (), self, r.self, r.world⟩
    | .ok () => ⟨.ok (), self, r.self, r.world⟩
  else
    ⟨.ok (), self, db, w⟩

/-- `Transaction::commit` (database.cpp 208-211). -/
def Transaction.commit {E : Type} (api : Engine E) (self : Transaction) (db : Database)
    (w : World E) : TxRet E (Except Exn Unit) :=
  let r := Database.commit api db w
  match r.out with
  | .error x => ⟨.error x, self, r.self, r.world⟩
  | .ok () => ⟨.ok (), { self with committed := true }, r.self, r.world⟩

/-- `Transaction::rollback` (database.cpp 213-216). -/
def Transaction.rollback {E : Type} (api : Engine E) (self : Transaction) (db : Database)
    (w : World E) : TxRet E (Except Exn Unit) :=
  let r := Database.rollback api db w
  match r.out with
  | .error x => ⟨.error x, self, r.self, r.world⟩
  | .ok () => ⟨.ok (), { self with committed := true }, r.self, r.world⟩

/-! ## Vocabulary of the specification -/

/-- A closed connection: the open flag is false or the handle is null. -/
def Database.IsClosed (d : Database) : Prop := d.isOpen = false ∨ d.db = none

/-- An open connection: the open flag is true and the handle is not null. -/
def Database.IsOpened (d : Database) : Prop := d.isOpen = true ∧ d.db ≠ none

/-- The connection invariant: the handle is non-null exactly when the flag is set. -/
def Database.Inv (d : Database) : Prop := d.db ≠ none ↔ d.isOpen = true

instance (d : Database) : Decidable d.IsClosed := by
  unfold Database.IsClosed
  infer_instance

instance (d : Database) : Decidable d.IsOpened := by
  unfold Database.IsOpened
  infer_instance

instance (d : Database) : Decidable d.Inv := by
  unfold Database.Inv
  infer_instance

/-- `NotOpenError`: the exception `checkOpen` throws. -/
def notOpenError : Exn := .DatabaseException "Database is not open"

/-- `BindError`: the exception thrown when a bind fails. -/
def bindError (msg : String) : Exn := .DatabaseException ("Failed to bind parameter: " ++ msg)

/-- `ExecutionError` as thrown by `executeWithParams`. -/
def executionError (msg : String) : Exn := .DatabaseException ("Execution failed: " ++ msg)

/-- `QueryError`: the exception thrown when the row loop ends on an error status. -/
def queryError (msg : String) : Exn :=
  .DatabaseException ("Query execution failed: " ++ msg)

/-! ## A scripted engine for evaluating the wrapper on concrete inputs -/

/-- State of the scripted engine: `badSql` are the statements `sqlite3_exec`
rejects, `steps` lists the statuses the next `sqlite3_step` calls report
(`SQLITE_DONE` once the list is used up). -/
structure Sim where
  openRc : Int
  badSql : List String
  prepareRc : Int
  steps : List Int
  rowid : Int
  changes : Int
  deriving DecidableEq, Repr

/-- The scripted engine.  Every prepared statement has three positional
placeholders, as `INSERT INTO students (name, age, grade) VALUES (?, ?, ?)` has.
As in SQLite, binding a position outside `1..3` reports `SQLITE_RANGE` (25), and
a placeholder that was never bound reads as NULL, so stepping does not depend on
how many were bound. -/
def simEngine : Engine Sim where
  sqlite3_open _ e := ⟨e.openRc, some 1, e⟩
  sqlite3_close _ e := e
  sqlite3_errmsg _ _ := "engine error"
  sqlite3_exec _ sql e := ⟨if sql ∈ e.badSql then 1 else SQLITE_OK, "engine error", e⟩
  sqlite3_prepare_v2 _ _ e := ⟨e.prepareRc, some 7, e⟩
  sqlite3_bind_text _ pos _ e :=
    ⟨if 1 ≤ pos ∧ pos ≤ 3 then SQLITE_OK else 25, e⟩
  sqlite3_step _ e :=
    match e.steps with
    | [] => ⟨SQLITE_DONE, e⟩
    | rc :: rest => ⟨rc, { e with steps := rest }⟩
  sqlite3_finalize _ e := e
  sqlite3_last_insert_rowid _ e := e.rowid
  sqlite3_changes _ e := e.changes

/-- A scripted engine state in which everything succeeds. -/
def sim0 : Sim :=
  { openRc := 0, badSql := [], prepareRc := 0, steps := [], rowid := 1, changes := 1 }

/-- A world on the scripted engine with an empty trace. -/
def world0 (e : Sim) : World Sim := { eng := e, trace := [] }

/-- An open connection to `data/students.db`. -/
def dbOpen : Database := { db := some 1, dbPath := "data/students.db", isOpen := true }

/-- A closed connection to `data/students.db`. -/
def dbClosed : Database := { db := none, dbPath := "data/students.db", isOpen := false }

/-- The parameterised insert of the specification's scenarios. -/
def insertSql : String := "INSERT INTO students (name, age, grade) VALUES (?, ?, ?);"

/-- The scenario `{ Transaction t(db); db.close(); ... }` on the scripted engine,
just before the Transaction goes out of scope: the transaction was begun on an
open connection and the connection was closed afterwards. -/
def closedMidTransaction : TxRet Sim (Except Exn Unit) :=
  { out := (Transaction.ctor simEngine dbOpen (world0 sim0)).out
    tx := (Transaction.ctor simEngine dbOpen (world0 sim0)).tx
    db := (Database.close simEngine (Transaction.ctor simEngine dbOpen (world0 sim0)).db
        (Transaction.ctor simEngine dbOpen (world0 sim0)).world).1
    world := (Database.close simEngine (Transaction.ctor simEngine dbOpen (world0 sim0)).db
        (Transaction.ctor simEngine dbOpen (world0 sim0)).world).2 }

/-- A row callback that returns normally. -/
def cbOk : Callback Sim := fun _ e => ⟨none, e⟩

/-- A row callback that throws on every row. -/
def cbThrow : Callback Sim := fun _ e => ⟨some "boom", e⟩

/-- The bind calls for `params`, in order: the C string of `params[j]` at
position `i + j + 1` (with `i = 0`: `p[j]` up to its first NUL at position
`j + 1`). -/
def bindCalls (stmt : StmtHandle) (i : Nat) (params : List String) : List Call :=
  (params.enumFrom i).map (fun ip => Call.sqlite3_bind_text stmt (ip.1 + 1) (cStr ip.2))

/-- The bind calls the original wording of the specification asks for: the
whole of `params[j]` at position `i + j + 1`. -/
def bindCallsWhole (stmt : StmtHandle) (i : Nat) (params : List String) : List Call :=
  (params.enumFrom i).map (fun ip => Call.sqlite3_bind_text stmt (ip.1 + 1) ip.2)

/-- A parameter with a NUL character in it: "Al", NUL, "ice". -/
def nulParam : String := String.mk ['A', 'l', Char.ofNat 0, 'i', 'c', 'e']

/-- Issued in order from engine state `e`, every bind of `params` (at positions
`i + 1`, `i + 2`, ...) reports `SQLITE_OK`. -/
def bindsSucceed {E : Type} (api : Engine E) (stmt : StmtHandle) :
    Nat → List String → E → Bool
  | _, [], _ => true
  | i, p :: ps, e =>
    decide ((api.sqlite3_bind_text stmt (i + 1) (cStr p) e).rc = SQLITE_OK) &&
      bindsSucceed api stmt (i + 1) ps (api.sqlite3_bind_text stmt (i + 1) (cStr p) e).eng

/-- The engine state after the binds of `params` were issued in order from `e`. -/
def afterBinds {E : Type} (api : Engine E) (stmt : StmtHandle) :
    Nat → List String → E → E
  | _, [], e => e
  | i, p :: ps, e =>
    afterBinds api stmt (i + 1) ps (api.sqlite3_bind_text stmt (i + 1) (cStr p) e).eng

/-- The statement behind `stmt` has `k` positional placeholders: the engine
accepts a bind exactly at the positions `1..k`. -/
def HasPlaceholders {E : Type} (api : Engine E) (stmt : StmtHandle) (k : Nat) : Prop :=
  ∀ pos value e, (api.sqlite3_bind_text stmt pos value e).rc = SQLITE_OK ↔ 1 ≤ pos ∧ pos ≤ k

/-- Stepping from engine state `e`, the statement yields `r` rows, the callback
returning normally on each, and then reports the status `final`. -/
def yieldsRowsThen {E : Type} (api : Engine E) (callback : Callback E) (stmt : StmtHandle)
    (final : Int) : Nat → E → Bool
  | 0, e => decide ((api.sqlite3_step stmt e).rc = final)
  | r + 1, e =>
    decide ((api.sqlite3_step stmt e).rc = SQLITE_ROW) &&
      ((callback stmt (api.sqlite3_step stmt e).eng).thrown.isNone &&
        yieldsRowsThen api callback stmt final r
          (callback stmt (api.sqlite3_step stmt e).eng).eng)

/-- The engine state after `r` rows were stepped to and handed to the callback. -/
def afterRows {E : Type} (api : Engine E) (callback : Callback E) (stmt : StmtHandle) :
    Nat → E → E
  | 0, e => e
  | r + 1, e =>
    afterRows api callback stmt r (callback stmt (api.sqlite3_step stmt e).eng).eng

/-- The calls of `r` loop iterations: step, callback, step, callback, ... -/
def rowCalls (stmt : StmtHandle) : Nat → List Call
  | 0 => []
  | r + 1 => Call.sqlite3_step stmt :: Call.callback stmt :: rowCalls stmt r

/-! ## Basic facts -/

theorem checkOpen_of_closed {d : Database} (h : d.IsClosed) :
    d.checkOpen = .error notOpenError := by
  rcases h with h | h <;> simp [Database.checkOpen, notOpenError, h]

theorem checkOpen_of_opened {d : Database} (h : d.IsOpened) : d.checkOpen = .ok () := by
  obtain ⟨h1, h2⟩ := h
  cases hdb : d.db with
  | none => exact absurd hdb h2
  | some x => simp [Database.checkOpen, h1, hdb]

theorem msg_ne_notOpen (pre s : String) (h : pre.data.head? ≠ some 'D') (hp : pre.data ≠ []) :
    Exn.DatabaseException (pre ++ s) ≠ notOpenError := by
  intro hEq
  have h1 : pre ++ s = "Database is not open" := by
    simpa [notOpenError] using hEq
  have h2 := congrArg (fun t => t.data.head?) h1
  simp only [String.data_append] at h2
  cases hd : pre.data with
  | nil => exact hp hd
  | cons c cs =>
    rw [hd] at h2 h
    simp at h2 h
    exact h h2

/-! ## Closed connections are refused before the engine is reached -/

section Closed
variable {E : Type} (api : Engine E) {d : Database} (w : World E)

theorem execute_of_closed (h : d.IsClosed) (sql : String) :
    Database.execute api d sql w = ⟨.error notOpenError, d, w⟩ := by
  simp [Database.execute, checkOpen_of_closed h]

theorem executeWithParams_of_closed (h : d.IsClosed) (sql : String) (params : List String) :
    Database.executeWithParams api d sql params w = ⟨.error notOpenError, d, w⟩ := by
  simp [Database.executeWithParams, checkOpen_of_closed h]

theorem query_of_closed (h : d.IsClosed) (sql : String) (cb : Callback E) (fuel : Nat) :
    Database.query api d sql cb fuel w = ⟨some (.error notOpenError), d, w⟩ := by
  simp [Database.query, checkOpen_of_closed h]

theorem queryWithParams_of_closed (h : d.IsClosed) (sql : String) (params : List String)
    (cb : Callback E) (fuel : Nat) :
    Database.queryWithParams api d sql params cb fuel w
      = ⟨some (.error notOpenError), d, w⟩ := by
  simp [Database.queryWithParams, checkOpen_of_closed h]

theorem getLastInsertId_of_closed (h : d.IsClosed) :
    Database.getLastInsertId api d w = ⟨.error notOpenError, d, w⟩ := by
  simp [Database.getLastInsertId, checkOpen_of_closed h]

theorem getChangesCount_of_closed (h : d.IsClosed) :
    Database.getChangesCount api d w = ⟨.error notOpenError, d, w⟩ := by
  simp [Database.getChangesCount, checkOpen_of_closed h]

end Closed

/-! ## On an open connection the not-open error is never raised -/

section Opened
variable {E : Type} (api : Engine E) {d : Database} (w : World E)

theorem execute_ne_notOpen (h : d.IsOpened) (sql : String) :
    (Database.execute api d sql w).out ≠ .error notOpenError := by
  simp only [Database.execute, checkOpen_of_opened h]
  split
  · simp only [ne_eq, Except.error.injEq]
    exact msg_ne_notOpen _ _ (by decide) (by decide)
  · simp

theorem bindOrStep_ne_notOpen_aux (pre s : String) (h : pre.data.head? ≠ some 'D')
    (hp : pre.data ≠ []) :
    (some (Except.error (Exn.DatabaseException (pre ++ s))) : Option (Except Exn Unit))
      ≠ some (.error notOpenError) := by
  simp only [ne_eq, Option.some.injEq, Except.error.injEq]
  exact msg_ne_notOpen _ _ h hp

theorem executeWithParams_ne_notOpen (h : d.IsOpened) (sql : String) (params : List String) :
    (Database.executeWithParams api d sql params w).out ≠ .error notOpenError := by
  simp only [Database.executeWithParams, checkOpen_of_opened h]
  split
  · simp only [ne_eq, Except.error.injEq]
    exact msg_ne_notOpen _ _ (by decide) (by decide)
  · split
    · simp only [ne_eq, Except.error.injEq]
      exact msg_ne_notOpen _ _ (by decide) (by decide)
    · split
      · simp only [ne_eq, Except.error.injEq]
        exact msg_ne_notOpen _ _ (by decide) (by decide)
      · simp

theorem finishQuery_ne_notOpen (self : Database) (cb : Callback E) (stmt : StmtHandle)
    (fuel : Nat) :
    (finishQuery api self cb stmt fuel w).out ≠ some (.error notOpenError) := by
  simp only [finishQuery]
  split
  · simp
  · simp [notOpenError]
  · split
    · exact bindOrStep_ne_notOpen_aux _ _ (by decide) (by decide)
    · simp

theorem query_ne_notOpen (h : d.IsOpened) (sql : String) (cb : Callback E) (fuel : Nat) :
    (Database.query api d sql cb fuel w).out ≠ some (.error notOpenError) := by
  simp only [Database.query, checkOpen_of_opened h]
  split
  · exact bindOrStep_ne_notOpen_aux _ _ (by decide) (by decide)
  · exact finishQuery_ne_notOpen api _ _ _ _ _

theorem queryWithParams_ne_notOpen (h : d.IsOpened) (sql : String) (params : List String)
    (cb : Callback E) (fuel : Nat) :
    (Database.queryWithParams api d sql params cb fuel w).out
      ≠ some (.error notOpenError) := by
  simp only [Database.queryWithParams, checkOpen_of_opened h]
  split
  · exact bindOrStep_ne_notOpen_aux _ _ (by decide) (by decide)
  · split
    · exact bindOrStep_ne_notOpen_aux _ _ (by decide) (by decide)
    · exact finishQuery_ne_notOpen api _ _ _ _ _

theorem getLastInsertId_ne_notOpen (h : d.IsOpened) :
    (Database.getLastInsertId api d w).out ≠ .error notOpenError := by
  simp [Database.getLastInsertId, checkOpen_of_opened h]

theorem getChangesCount_ne_notOpen (h : d.IsOpened) :
    (Database.getChangesCount api d w).out ≠ .error notOpenError := by
  simp [Database.getChangesCount, checkOpen_of_opened h]

end Opened

/-! ## The data members are left alone by everything but open, close and move -/

section Frame
variable {E : Type} (api : Engine E) (d : Database) (w : World E)

theorem execute_self (sql : String) : (Database.execute api d sql w).self = d := by
  simp only [Database.execute]
  split
  · rfl
  · split <;> rfl

theorem executeWithParams_self (sql : String) (params : List String) :
    (Database.executeWithParams api d sql params w).self = d := by
  simp only [Database.executeWithParams]
  split
  · rfl
  · split
    · rfl
    · split
      · rfl
      · split <;> rfl

theorem finishQuery_self (cb : Callback E) (stmt : StmtHandle) (fuel : Nat) :
    (finishQuery api d cb stmt fuel w).self = d := by
  simp only [finishQuery]
  split
  · rfl
  · rfl
  · split <;> rfl

theorem query_self (sql : String) (cb : Callback E) (fuel : Nat) :
    (Database.query api d sql cb fuel w).self = d := by
  simp only [Database.query]
  split
  · rfl
  · split
    · rfl
    · exact finishQuery_self api d _ cb _ fuel

theorem queryWithParams_self (sql : String) (params : List String) (cb : Callback E)
    (fuel : Nat) : (Database.queryWithParams api d sql params cb fuel w).self = d := by
  simp only [Database.queryWithParams]
  split
  · rfl
  · split
    · rfl
    · split
      · rfl
      · exact finishQuery_self api d _ cb _ fuel

theorem getLastInsertId_self : (Database.getLastInsertId api d w).self = d := by
  simp only [Database.getLastInsertId]
  split <;> rfl

theorem getChangesCount_self : (Database.getChangesCount api d w).self = d := by
  simp only [Database.getChangesCount]
  split <;> rfl

theorem getErrorMessage_self : (Database.getErrorMessage api d w).self = d := by
  simp only [Database.getErrorMessage]
  split <;> rfl

/-- On an open connection `execute` always reaches `sqlite3_exec`. -/
theorem execute_trace_of_opened (h : d.IsOpened) (sql : String) :
    (Database.execute api d sql w).world.trace
      = w.trace ++ Call.sqlite3_exec d.db (cStr sql) ::
          (if (api.sqlite3_exec d.db (cStr sql) w.eng).rc ≠ SQLITE_OK then [Call.sqlite3_free]
           else []) := by
  simp only [Database.execute, checkOpen_of_opened h]
  split <;> simp [World.call]

end Frame

/-! ## Claim C6 -/

/-- C6: on a closed connection (open flag false or handle null) each of execute,
executeWithParams, query, queryWithParams, beginTransaction, commit, rollback,
getLastInsertId and getChangesCount throws the exception with message
"Database is not open" and leaves the world untouched: no engine call is made
and the row callback is not invoked (the trace is unchanged).  On an open
connection none of them ends with that exception. -/
theorem closed_connection_refused {E : Type} (api : Engine E) (d : Database) (w : World E)
    (sql : String) (params : List String) (cb : Callback E) (fuel : Nat) :
    (d.isOpen = false ∨ d.db = none →
      Database.execute api d sql w
        = ⟨.error (.DatabaseException "Database is not open"), d, w⟩ ∧
      Database.executeWithParams api d sql params w
        = ⟨.error (.DatabaseException "Database is not open"), d, w⟩ ∧
      Database.query api d sql cb fuel w
        = ⟨some (.error (.DatabaseException "Database is not open")), d, w⟩ ∧
      Database.queryWithParams api d sql params cb fuel w
        = ⟨some (.error (.DatabaseException "Database is not open")), d, w⟩ ∧
      Database.beginTransaction api d w
        = ⟨.error (.DatabaseException "Database is not open"), d, w⟩ ∧
      Database.commit api d w
        = ⟨.error (.DatabaseException "Database is not open"), d, w⟩ ∧
      Database.rollback api d w
        = ⟨.error (.DatabaseException "Database is not open"), d, w⟩ ∧
      Database.getLastInsertId api d w
        = ⟨.error (.DatabaseException "Database is not open"), d, w⟩ ∧
      Database.getChangesCount api d w
        = ⟨.error (.DatabaseException "Database is not open"), d, w⟩) ∧
    (d.isOpen = true ∧ d.db ≠ none →
      (Database.execute api d sql w).out
        ≠ .error (.DatabaseException "Database is not open") ∧
      (Database.executeWithParams api d sql params w).out
        ≠ .error (.DatabaseException "Database is not open") ∧
      (Database.query api d sql cb fuel w).out
        ≠ some (.error (.DatabaseException "Database is not open")) ∧
      (Database.queryWithParams api d sql params cb fuel w).out
        ≠ some (.error (.DatabaseException "Database is not open")) ∧
      (Database.beginTransaction api d w).out
        ≠ .error (.DatabaseException "Database is not open") ∧
      (Database.commit api d w).out
        ≠ .error (.DatabaseException "Database is not open") ∧
      (Database.rollback api d w).out
        ≠ .error (.DatabaseException "Database is not open") ∧
      (Database.getLastInsertId api d w).out
        ≠ .error (.DatabaseException "Database is not open") ∧
      (Database.getChangesCount api d w).out
        ≠ .error (.DatabaseException "Database is not open")) := by
  refine ⟨fun h => ?_, fun h => ?_⟩
  · have hc : d.IsClosed := h
    exact ⟨execute_of_closed api w hc sql, executeWithParams_of_closed api w hc sql params,
      query_of_closed api w hc sql cb fuel, queryWithParams_of_closed api w hc sql params cb fuel,
      execute_of_closed api w hc _, execute_of_closed api w hc _, execute_of_closed api w hc _,
      getLastInsertId_of_closed api w hc, getChangesCount_of_closed api w hc⟩
  · have ho : d.IsOpened := h
    exact ⟨execute_ne_notOpen api w ho sql, executeWithParams_ne_notOpen api w ho sql params,
      query_ne_notOpen api w ho sql cb fuel, queryWithParams_ne_notOpen api w ho sql params cb fuel,
      execute_ne_notOpen api w ho _, execute_ne_notOpen api w ho _, execute_ne_notOpen api w ho _,
      getLastInsertId_ne_notOpen api w ho, getChangesCount_ne_notOpen api w ho⟩

/-- Witness for C6: a closed connection refuses `execute`, an open one does not
raise the not-open exception. -/
theorem closed_connection_refused_witness :
    (dbClosed.isOpen = false ∨ dbClosed.db = none) ∧
    Database.execute simEngine dbClosed "SELECT 1;" (world0 sim0)
      = ⟨.error (.DatabaseException "Database is not open"), dbClosed, world0 sim0⟩ ∧
    (dbOpen.isOpen = true ∧ dbOpen.db ≠ none) ∧
    (Database.execute simEngine dbOpen "SELECT 1;" (world0 sim0)).out
      ≠ .error (.DatabaseException "Database is not open") :=
  ⟨Or.inl rfl,
    ((closed_connection_refused simEngine dbClosed (world0 sim0) "SELECT 1;" [] cbOk 1).1
      (Or.inl rfl)).1,
    ⟨rfl, by decide⟩,
    ((closed_connection_refused simEngine dbOpen (world0 sim0) "SELECT 1;" [] cbOk 1).2
      ⟨rfl, by decide⟩).1⟩

/-! ## Claim C7 -/

/-- C7: on an open connection, whatever the outcome of execute,
executeWithParams, query, queryWithParams, beginTransaction, commit, rollback,
getLastInsertId, getChangesCount and getErrorMessage, the data members (path,
open flag, handle) are the same afterwards; and when `execute` has thrown, the
connection is still open and a following `execute` calls `sqlite3_exec` again. -/
theorem operations_keep_connection_state {E : Type} (api : Engine E) (d : Database)
    (w : World E) (sql sql2 : String) (params : List String) (cb : Callback E) (fuel : Nat)
    (h : d.isOpen = true ∧ d.db ≠ none) :
    (Database.execute api d sql w).self = d ∧
    (Database.executeWithParams api d sql params w).self = d ∧
    (Database.query api d sql cb fuel w).self = d ∧
    (Database.queryWithParams api d sql params cb fuel w).self = d ∧
    (Database.beginTransaction api d w).self = d ∧
    (Database.commit api d w).self = d ∧
    (Database.rollback api d w).self = d ∧
    (Database.getLastInsertId api d w).self = d ∧
    (Database.getChangesCount api d w).self = d ∧
    (Database.getErrorMessage api d w).self = d ∧
    (∀ x, (Database.execute api d sql w).out = .error x →
      (Database.execute api d sql w).self.isOpen = true ∧
      (Database.execute api d sql w).self.db ≠ none ∧
      ∃ rest,
        (Database.execute api (Database.execute api d sql w).self sql2
            (Database.execute api d sql w).world).world.trace
          = (Database.execute api d sql w).world.trace
              ++ Call.sqlite3_exec d.db (cStr sql2) :: rest) := by
  refine ⟨execute_self api d w sql, executeWithParams_self api d w sql params,
    query_self api d w sql cb fuel, queryWithParams_self api d w sql params cb fuel,
    execute_self api d w _, execute_self api d w _, execute_self api d w _,
    getLastInsertId_self api d w, getChangesCount_self api d w,
    getErrorMessage_self api d w, ?_⟩
  intro x _
  rw [execute_self]
  exact ⟨h.1, h.2, _, execute_trace_of_opened api d _ h sql2⟩

/-- Witness for C7: a failing `execute` on the scripted engine leaves the
connection as it was. -/
theorem operations_keep_connection_state_witness :
    (dbOpen.isOpen = true ∧ dbOpen.db ≠ none) ∧
    (Database.execute simEngine dbOpen "SELEC 1;"
      (world0 { sim0 with badSql := ["SELEC 1;"] })).out
        = .error (.DatabaseException "SQL execution error: engine error") ∧
    (Database.execute simEngine dbOpen "SELEC 1;"
      (world0 { sim0 with badSql := ["SELEC 1;"] })).self = dbOpen :=
  ⟨⟨rfl, by decide⟩, by decide,
    (operations_keep_connection_state simEngine dbOpen
      (world0 { sim0 with badSql := ["SELEC 1;"] }) "SELEC 1;" "SELECT 1;" [] cbOk 1
      ⟨rfl, by decide⟩).1⟩

/-! ## Claim C3: the handle is non-null exactly when the connection is open -/

theorem open_inv {E : Type} (api : Engine E)
    (hopen : ∀ path e, (api.sqlite3_open path e).rc = SQLITE_OK →
      (api.sqlite3_open path e).db ≠ none)
    (d : Database) (w : World E) (hd : d.Inv) : (Database.open_ api d w).self.Inv := by
  simp only [Database.open_]
  split
  · exact hd
  · rename_i hclosed
    split
    · simp [Database.Inv, hclosed]
    · rename_i hrc
      have hok : (api.sqlite3_open (cStr d.dbPath) w.eng).rc = SQLITE_OK := by
        simpa using hrc
      simp [Database.Inv, hopen _ _ hok]

theorem close_inv {E : Type} (api : Engine E) (d : Database) (w : World E) (hd : d.Inv) :
    (Database.close api d w).1.Inv := by
  simp only [Database.close]
  split
  · simp [Database.Inv]
  · exact hd

/-- C3: assuming the engine's open call yields a non-null handle whenever it
reports success, "handle non-null iff open flag set" holds after construction
(whether `open` succeeded or threw) and is preserved by open, close, the
destructor, move construction and move assignment (for the destination and
for the moved-from source, which ends with a null handle and a cleared flag)
and by every execute / query / introspection operation. -/
theorem handle_nonnull_iff_open {E : Type} (api : Engine E)
    (hopen : ∀ path e, (api.sqlite3_open path e).rc = SQLITE_OK →
      (api.sqlite3_open path e).db ≠ none)
    (d o : Database) (w : World E) (path residue sql : String) (params : List String)
    (cb : Callback E) (fuel : Nat) :
    (Database.ctor api path w).self.Inv ∧
    (d.Inv → (Database.open_ api d w).self.Inv) ∧
    (d.Inv → (Database.close api d w).1.Inv) ∧
    (d.Inv → (Database.dtor api d w).1.Inv) ∧
    (o.Inv → (Database.moveCtor o residue).1.Inv ∧ (Database.moveCtor o residue).2.Inv ∧
      (Database.moveCtor o residue).2.db = none ∧
      (Database.moveCtor o residue).2.isOpen = false) ∧
    (d.Inv → o.Inv → (Database.moveAssign api d (some o) residue w).1.Inv ∧
      ∃ src, (Database.moveAssign api d (some o) residue w).2.1 = some src ∧
        src.Inv ∧ src.db = none ∧ src.isOpen = false) ∧
    (d.Inv → (Database.moveAssign api d none residue w).1.Inv) ∧
    (d.Inv →
      (Database.execute api d sql w).self.Inv ∧
      (Database.executeWithParams api d sql params w).self.Inv ∧
      (Database.query api d sql cb fuel w).self.Inv ∧
      (Database.queryWithParams api d sql params cb fuel w).self.Inv ∧
      (Database.beginTransaction api d w).self.Inv ∧
      (Database.commit api d w).self.Inv ∧
      (Database.rollback api d w).self.Inv ∧
      (Database.getLastInsertId api d w).self.Inv ∧
      (Database.getChangesCount api d w).self.Inv ∧
      (Database.getErrorMessage api d w).self.Inv) := by
  refine ⟨?_, open_inv api hopen d w, close_inv api d w, close_inv api d w, ?_, ?_, ?_, ?_⟩
  · exact open_inv api hopen _ w (by simp [Database.Inv])
  · intro ho
    refine ⟨?_, by simp [Database.moveCtor, Database.Inv], rfl, rfl⟩
    simpa [Database.moveCtor, Database.Inv] using ho
  · intro _ ho
    refine ⟨?_, _, rfl, by simp [Database.Inv], rfl, rfl⟩
    simpa [Database.moveAssign, Database.Inv] using ho
  · intro hd
    simpa [Database.moveAssign] using hd
  · intro hd
    refine ⟨?_, ?_, ?_, ?_, ?_, ?_, ?_, ?_, ?_, ?_⟩
    · rw [execute_self]; exact hd
    · rw [executeWithParams_self]; exact hd
    · rw [query_self]; exact hd
    · rw [queryWithParams_self]; exact hd
    · exact (execute_self api d w _).symm ▸ hd
    · exact (execute_self api d w _).symm ▸ hd
    · exact (execute_self api d w _).symm ▸ hd
    · rw [getLastInsertId_self]; exact hd
    · rw [getChangesCount_self]; exact hd
    · rw [getErrorMessage_self]; exact hd

/-- Witness for C3: the scripted engine hands out a non-null handle, and closing
an open connection keeps the invariant. -/
theorem handle_nonnull_iff_open_witness :
    (∀ path e, (simEngine.sqlite3_open path e).rc = SQLITE_OK →
      (simEngine.sqlite3_open path e).db ≠ none) ∧
    dbOpen.Inv ∧ (Database.close simEngine dbOpen (world0 sim0)).1.Inv :=
  ⟨fun _ _ _ => by simp [simEngine], by simp [Database.Inv, dbOpen],
    (handle_nonnull_iff_open simEngine (fun _ _ _ => by simp [simEngine]) dbOpen dbClosed
      (world0 sim0) "data/students.db" "" "SELECT 1;" [] cbOk 1).2.2.1
      (by simp [Database.Inv, dbOpen])⟩

/-! ## class Transaction -/

section Tx
variable {E : Type} (api : Engine E)

/-- `execute` on an open connection, spelled out. -/
theorem execute_of_opened {d : Database} (h : d.IsOpened) (sql : String) (w : World E) :
    Database.execute api d sql w
      = if (api.sqlite3_exec d.db (cStr sql) w.eng).rc ≠ SQLITE_OK then
          ⟨.error (.DatabaseException
              ("SQL execution error: " ++ (api.sqlite3_exec d.db (cStr sql) w.eng).errMsg)), d,
            ⟨(api.sqlite3_exec d.db (cStr sql) w.eng).eng,
              w.trace ++ [Call.sqlite3_exec d.db (cStr sql), Call.sqlite3_free]⟩⟩
        else
          ⟨.ok (), d, ⟨(api.sqlite3_exec d.db (cStr sql) w.eng).eng,
            w.trace ++ [Call.sqlite3_exec d.db (cStr sql)]⟩⟩ := by
  simp only [Database.execute, checkOpen_of_opened h]
  split <;> simp [World.call]

theorem ctor_committed (database : Database) (w : World E) :
    (Transaction.ctor api database w).tx.committed = false := by
  simp only [Transaction.ctor]
  split <;> rfl

theorem dtor_out (t : Transaction) (db : Database) (w : World E) :
    (Transaction.dtor api t db w).out = .ok () := by
  simp only [Transaction.dtor]
  split
  · split <;> rfl
  · rfl

theorem dtor_of_active {t : Transaction} (ht : t.committed = false) (db : Database)
    (w : World E) :
    (Transaction.dtor api t db w).world = (Database.rollback api db w).world ∧
    (Transaction.dtor api t db w).db = db := by
  simp only [Transaction.dtor, ht]
  simp only [Bool.not_false, if_true]
  split
  · exact ⟨rfl, execute_self api db w _⟩
  · exact ⟨rfl, execute_self api db w _⟩

theorem dtor_of_finalized {t : Transaction} (ht : t.committed = true) (db : Database)
    (w : World E) : Transaction.dtor api t db w = ⟨.ok (), t, db, w⟩ := by
  simp [Transaction.dtor, ht]

theorem dtor_trace_of_active {t : Transaction} (ht : t.committed = false) {db : Database}
    (hdb : db.IsOpened) (w : World E) :
    (Transaction.dtor api t db w).world.trace
      = w.trace ++ Call.sqlite3_exec db.db "ROLLBACK;" ::
          (if (api.sqlite3_exec db.db "ROLLBACK;" w.eng).rc ≠ SQLITE_OK
            then [Call.sqlite3_free] else []) := by
  rw [(dtor_of_active api ht db w).1]
  exact execute_trace_of_opened api db w hdb _

theorem tx_commit_flag_of_error (t : Transaction) (db : Database) (w : World E) (x : Exn)
    (hx : (Database.commit api db w).out = .error x) :
    (Transaction.commit api t db w).tx.committed = t.committed := by
  simp [Transaction.commit, hx]

theorem tx_commit_flag_of_ok (t : Transaction) (db : Database) (w : World E)
    (hx : (Database.commit api db w).out = .ok ()) :
    (Transaction.commit api t db w).tx.committed = true := by
  simp [Transaction.commit, hx]

theorem tx_rollback_flag_of_error (t : Transaction) (db : Database) (w : World E) (x : Exn)
    (hx : (Database.rollback api db w).out = .error x) :
    (Transaction.rollback api t db w).tx.committed = t.committed := by
  simp [Transaction.rollback, hx]

theorem tx_rollback_flag_of_ok (t : Transaction) (db : Database) (w : World E)
    (hx : (Database.rollback api db w).out = .ok ()) :
    (Transaction.rollback api t db w).tx.committed = true := by
  simp [Transaction.rollback, hx]

theorem tx_commit_out (t : Transaction) (db : Database) (w : World E) :
    (Transaction.commit api t db w).out = (Database.commit api db w).out := by
  simp only [Transaction.commit]
  split
  · rename_i x hx
    simp [hx]
  · rename_i hx
    simp [hx]

theorem tx_rollback_out (t : Transaction) (db : Database) (w : World E) :
    (Transaction.rollback api t db w).out = (Database.rollback api db w).out := by
  simp only [Transaction.rollback]
  split
  · rename_i x hx
    simp [hx]
  · rename_i hx
    simp [hx]

end Tx

/-! ## Claim C1 -/

/-- C1 as stated fails: a Transaction is constructed successfully on an open
connection, the connection is closed, and the Transaction is destroyed without
commit() or rollback().  The destructor's rollback attempt is stopped by the
not-open check; the engine has seen BEGIN and the close, and no ROLLBACK
statement at all. -/
theorem transaction_dtor_no_rollback_when_closed :
    closedMidTransaction.out = .ok () ∧
    closedMidTransaction.tx.committed = false ∧
    closedMidTransaction.db = dbClosed ∧
    (Transaction.dtor simEngine closedMidTransaction.tx closedMidTransaction.db
      closedMidTransaction.world).out = .ok () ∧
    (Transaction.dtor simEngine closedMidTransaction.tx closedMidTransaction.db
      closedMidTransaction.world).world.trace
      = [Call.sqlite3_exec (some 1) "BEGIN TRANSACTION;", Call.sqlite3_close (some 1)] ∧
    ∀ h, ¬ Call.sqlite3_exec h "ROLLBACK;" ∈
      (Transaction.dtor simEngine closedMidTransaction.tx closedMidTransaction.db
        closedMidTransaction.world).world.trace := by
  have htrace : (Transaction.dtor simEngine closedMidTransaction.tx closedMidTransaction.db
      closedMidTransaction.world).world.trace
      = [Call.sqlite3_exec (some 1) "BEGIN TRANSACTION;", Call.sqlite3_close (some 1)] := by
    decide
  refine ⟨by decide, by decide, by decide, by decide, htrace, ?_⟩
  intro h hmem
  rw [htrace] at hmem
  simp only [List.mem_cons, Call.sqlite3_exec.injEq, List.mem_singleton, List.not_mem_nil,
    or_false] at hmem
  rcases hmem with ⟨_, hsql⟩ | hclose
  · exact absurd hsql (by decide)
  · exact Call.noConfusion hclose

/-- C1 amended: take a Transaction whose construction succeeded.  If neither
commit() nor rollback() was called, the destructor never lets an exception out;
with the connection open at destruction it issues exactly one "ROLLBACK;"
statement (followed only by the release of the error text when that statement
fails), and with the connection closed at destruction (open flag false or
handle null) its rollback attempt is refused by the not-open check and nothing
is issued.  If commit() or rollback() was called and returned normally, the
destructor issues nothing at all. -/
theorem transaction_dtor_rollback_if_open {E : Type} (api : Engine E) (database : Database)
    (w : World E) (hctor : (Transaction.ctor api database w).out = .ok ())
    (db2 : Database) (w2 : World E) :
    (Transaction.dtor api (Transaction.ctor api database w).tx db2 w2).out = .ok () ∧
    (db2.isOpen = true ∧ db2.db ≠ none →
      (Transaction.dtor api (Transaction.ctor api database w).tx db2 w2).world.trace
        = w2.trace ++ Call.sqlite3_exec db2.db "ROLLBACK;" ::
            (if (api.sqlite3_exec db2.db "ROLLBACK;" w2.eng).rc ≠ SQLITE_OK
              then [Call.sqlite3_free] else []) ∧
      (Transaction.dtor api (Transaction.ctor api database w).tx db2 w2).world.trace.count
          (Call.sqlite3_exec db2.db "ROLLBACK;")
        = w2.trace.count (Call.sqlite3_exec db2.db "ROLLBACK;") + 1) ∧
    (db2.isOpen = false ∨ db2.db = none →
      (Transaction.dtor api (Transaction.ctor api database w).tx db2 w2).world = w2) ∧
    ((Transaction.commit api (Transaction.ctor api database w).tx db2 w2).out = .ok () →
      ∀ db3 w3,
        (Transaction.dtor api
          (Transaction.commit api (Transaction.ctor api database w).tx db2 w2).tx db3 w3).out
            = .ok () ∧
        (Transaction.dtor api
          (Transaction.commit api (Transaction.ctor api database w).tx db2 w2).tx db3 w3).world
            = w3) ∧
    ((Transaction.rollback api (Transaction.ctor api database w).tx db2 w2).out = .ok () →
      ∀ db3 w3,
        (Transaction.dtor api
          (Transaction.rollback api (Transaction.ctor api database w).tx db2 w2).tx db3 w3).out
            = .ok () ∧
        (Transaction.dtor api
          (Transaction.rollback api (Transaction.ctor api database w).tx db2 w2).tx db3 w3).world
            = w3) := by
  have _ := hctor
  have ht := ctor_committed api database w
  refine ⟨dtor_out api _ _ _, fun h => ?_, fun h => ?_, ?_, ?_⟩
  · have htr := dtor_trace_of_active api ht h w2
    refine ⟨htr, ?_⟩
    rw [htr]
    split <;> simp [List.count_cons]
  · have hc : db2.IsClosed := h
    rw [(dtor_of_active api ht db2 w2).1]
    exact congrArg Ret.world (execute_of_closed api w2 hc "ROLLBACK;")
  · intro hok db3 w3
    rw [tx_commit_out] at hok
    rw [dtor_of_finalized api (tx_commit_flag_of_ok api _ db2 w2 hok)]
    exact ⟨rfl, rfl⟩
  · intro hok db3 w3
    rw [tx_rollback_out] at hok
    rw [dtor_of_finalized api (tx_rollback_flag_of_ok api _ db2 w2 hok)]
    exact ⟨rfl, rfl⟩

/-- Witness for the amended C1: on the scripted engine, with ROLLBACK made to
fail, a transaction that was successfully begun issues its one ROLLBACK on the
open connection and the destructor still ends normally. -/
theorem transaction_dtor_rollback_if_open_witness :
    (Transaction.ctor simEngine dbOpen (world0 { sim0 with badSql := ["ROLLBACK;"] })).out
      = .ok () ∧
    (dbOpen.isOpen = true ∧ dbOpen.db ≠ none) ∧
    (Transaction.dtor simEngine
      (Transaction.ctor simEngine dbOpen (world0 { sim0 with badSql := ["ROLLBACK;"] })).tx
      dbOpen (world0 { sim0 with badSql := ["ROLLBACK;"] })).world.trace.count
        (Call.sqlite3_exec dbOpen.db "ROLLBACK;")
      = (world0 { sim0 with badSql := ["ROLLBACK;"] }).trace.count
          (Call.sqlite3_exec dbOpen.db "ROLLBACK;") + 1 :=
  ⟨by decide, ⟨rfl, by decide⟩,
    ((transaction_dtor_rollback_if_open simEngine dbOpen
      (world0 { sim0 with badSql := ["ROLLBACK;"] }) (by decide) dbOpen
      (world0 { sim0 with badSql := ["ROLLBACK;"] })).2.1 ⟨rfl, by decide⟩).2⟩

/-! ## Claim C10 -/

/-- C10: on an open connection and a Transaction that is not finalized, when the
underlying COMMIT (or ROLLBACK) statement fails, the explicit commit() (or
rollback()) throws the execution error, the `committed` flag stays false, and
the destructor, in whatever later state it runs, still makes its one
`rollback()` call on the connection (one `sqlite3_exec` of "ROLLBACK;" when the
connection is open); the flag is true afterwards exactly when the underlying
statement reported success. -/
theorem failed_finalize_keeps_transaction_active {E : Type} (api : Engine E)
    (t : Transaction) (db : Database) (w : World E)
    (hdb : db.isOpen = true ∧ db.db ≠ none) (ht : t.committed = false) :
    ((api.sqlite3_exec db.db "COMMIT;" w.eng).rc ≠ SQLITE_OK →
      (Transaction.commit api t db w).out
        = .error (.DatabaseException
            ("SQL execution error: " ++ (api.sqlite3_exec db.db "COMMIT;" w.eng).errMsg)) ∧
      (Transaction.commit api t db w).tx.committed = false ∧
      ∀ db2 w2,
        (Transaction.dtor api (Transaction.commit api t db w).tx db2 w2).world
          = (Database.rollback api db2 w2).world ∧
        (db2.isOpen = true ∧ db2.db ≠ none →
          (Transaction.dtor api (Transaction.commit api t db w).tx db2 w2).world.trace
            = w2.trace ++ Call.sqlite3_exec db2.db "ROLLBACK;" ::
                (if (api.sqlite3_exec db2.db "ROLLBACK;" w2.eng).rc ≠ SQLITE_OK
                  then [Call.sqlite3_free] else []))) ∧
    ((Transaction.commit api t db w).tx.committed = true
      ↔ (api.sqlite3_exec db.db "COMMIT;" w.eng).rc = SQLITE_OK) ∧
    ((api.sqlite3_exec db.db "ROLLBACK;" w.eng).rc ≠ SQLITE_OK →
      (Transaction.rollback api t db w).out
        = .error (.DatabaseException
            ("SQL execution error: " ++ (api.sqlite3_exec db.db "ROLLBACK;" w.eng).errMsg)) ∧
      (Transaction.rollback api t db w).tx.committed = false ∧
      ∀ db2 w2,
        (Transaction.dtor api (Transaction.rollback api t db w).tx db2 w2).world
          = (Database.rollback api db2 w2).world ∧
        (db2.isOpen = true ∧ db2.db ≠ none →
          (Transaction.dtor api (Transaction.rollback api t db w).tx db2 w2).world.trace
            = w2.trace ++ Call.sqlite3_exec db2.db "ROLLBACK;" ::
                (if (api.sqlite3_exec db2.db "ROLLBACK;" w2.eng).rc ≠ SQLITE_OK
                  then [Call.sqlite3_free] else []))) ∧
    ((Transaction.rollback api t db w).tx.committed = true
      ↔ (api.sqlite3_exec db.db "ROLLBACK;" w.eng).rc = SQLITE_OK) := by
  have ho : db.IsOpened := hdb
  have key : ∀ sql : String, (api.sqlite3_exec db.db (cStr sql) w.eng).rc ≠ SQLITE_OK →
      (Database.execute api db sql w).out = .error (.DatabaseException
        ("SQL execution error: " ++ (api.sqlite3_exec db.db (cStr sql) w.eng).errMsg)) := by
    intro sql hrc
    rw [execute_of_opened api ho, if_pos hrc]
  have keyOk : ∀ sql : String, (api.sqlite3_exec db.db (cStr sql) w.eng).rc = SQLITE_OK →
      (Database.execute api db sql w).out = .ok () := by
    intro sql hrc
    rw [execute_of_opened api ho, if_neg (by simpa using hrc)]
  refine ⟨fun hrc => ?_, ?_, fun hrc => ?_, ?_⟩
  · have hflag : (Transaction.commit api t db w).tx.committed = false := by
      rw [tx_commit_flag_of_error api t db w _ (key _ hrc)]; exact ht
    exact ⟨by rw [tx_commit_out]; exact key _ hrc, hflag,
      fun db2 w2 => ⟨(dtor_of_active api hflag db2 w2).1,
        fun h2 => dtor_trace_of_active api hflag h2 w2⟩⟩
  · constructor
    · intro hflag
      by_contra hrc
      rw [tx_commit_flag_of_error api t db w _ (key _ hrc), ht] at hflag
      exact Bool.false_ne_true hflag
    · intro hrc
      exact tx_commit_flag_of_ok api t db w (keyOk _ hrc)
  · have hflag : (Transaction.rollback api t db w).tx.committed = false := by
      rw [tx_rollback_flag_of_error api t db w _ (key _ hrc)]; exact ht
    exact ⟨by rw [tx_rollback_out]; exact key _ hrc, hflag,
      fun db2 w2 => ⟨(dtor_of_active api hflag db2 w2).1,
        fun h2 => dtor_trace_of_active api hflag h2 w2⟩⟩
  · constructor
    · intro hflag
      by_contra hrc
      rw [tx_rollback_flag_of_error api t db w _ (key _ hrc), ht] at hflag
      exact Bool.false_ne_true hflag
    · intro hrc
      exact tx_rollback_flag_of_ok api t db w (keyOk _ hrc)

/-- Witness for C10: on the scripted engine with COMMIT made to fail, commit()
leaves the flag false. -/
theorem failed_finalize_keeps_transaction_active_witness :
    (dbOpen.isOpen = true ∧ dbOpen.db ≠ none) ∧
    (simEngine.sqlite3_exec dbOpen.db "COMMIT;" { sim0 with badSql := ["COMMIT;"] }).rc
      ≠ SQLITE_OK ∧
    (Transaction.commit simEngine { committed := false } dbOpen
      (world0 { sim0 with badSql := ["COMMIT;"] })).tx.committed = false :=
  ⟨⟨rfl, by decide⟩, by decide,
    ((failed_finalize_keeps_transaction_active simEngine { committed := false } dbOpen
      (world0 { sim0 with badSql := ["COMMIT;"] }) ⟨rfl, by decide⟩ rfl).1 (by decide)).2.1⟩

/-! ## Claim C9 -/

theorem castToInt_eq_iff (x : Int) :
    castToInt x = x ↔ -2147483648 ≤ x ∧ x ≤ 2147483647 := by
  unfold castToInt
  omega

/-- C9 as stated fails: when the engine reports the row identifier 2^31 on an
open connection, `getLastInsertId` returns -2^31, not the reported value. -/
theorem getLastInsertId_not_exact :
    simEngine.sqlite3_last_insert_rowid dbOpen.db { sim0 with rowid := 2147483648 }
      = 2147483648 ∧
    (Database.getLastInsertId simEngine dbOpen
      (world0 { sim0 with rowid := 2147483648 })).out = .ok (-2147483648) ∧
    (Database.getLastInsertId simEngine dbOpen
      (world0 { sim0 with rowid := 2147483648 })).out
      ≠ .ok (simEngine.sqlite3_last_insert_rowid dbOpen.db
          { sim0 with rowid := 2147483648 }) := by
  refine ⟨rfl, by decide, by decide⟩

/-- C9 amended: on an open connection `getLastInsertId` returns the row
identifier the engine reports narrowed to a signed 32-bit integer; the returned
value is the reported one exactly when that lies in -2^31 .. 2^31 - 1. -/
theorem getLastInsertId_narrowed {E : Type} (api : Engine E) (d : Database) (w : World E)
    (h : d.isOpen = true ∧ d.db ≠ none) :
    (Database.getLastInsertId api d w).out
      = .ok (castToInt (api.sqlite3_last_insert_rowid d.db w.eng)) ∧
    ((Database.getLastInsertId api d w).out = .ok (api.sqlite3_last_insert_rowid d.db w.eng)
      ↔ -2147483648 ≤ api.sqlite3_last_insert_rowid d.db w.eng ∧
        api.sqlite3_last_insert_rowid d.db w.eng ≤ 2147483647) := by
  have ho : d.IsOpened := h
  have h1 : (Database.getLastInsertId api d w).out
      = .ok (castToInt (api.sqlite3_last_insert_rowid d.db w.eng)) := by
    simp [Database.getLastInsertId, checkOpen_of_opened ho]
  refine ⟨h1, ?_⟩
  rw [h1, ← castToInt_eq_iff]
  constructor
  · intro heq
    exact Except.ok.inj heq
  · intro heq
    rw [heq]

/-- Witness for the amended C9: the identifier 1 is returned as reported. -/
theorem getLastInsertId_narrowed_witness :
    (dbOpen.isOpen = true ∧ dbOpen.db ≠ none) ∧
    (Database.getLastInsertId simEngine dbOpen (world0 sim0)).out = .ok (castToInt 1) :=
  ⟨⟨rfl, by decide⟩,
    (getLastInsertId_narrowed simEngine dbOpen (world0 sim0) ⟨rfl, by decide⟩).1⟩

/-! ## The bind loop -/

section BindLoop
variable {E : Type} (api : Engine E) (stmt : StmtHandle)

theorem cStr_of_no_nul (s : String) (h : ∀ c ∈ s.data, c.toNat ≠ 0) : cStr s = s := by
  have htw : s.data.takeWhile (fun c => c.toNat != 0) = s.data := by
    rw [List.takeWhile_eq_self_iff]
    intro c hc
    simpa using h c hc
  simp only [cStr, htw]

theorem bindCalls_of_no_nul (i : Nat) (ps : List String)
    (h : ∀ p ∈ ps, ∀ c ∈ p.data, c.toNat ≠ 0) :
    bindCalls stmt i ps
      = (ps.enumFrom i).map (fun ip => Call.sqlite3_bind_text stmt (ip.1 + 1) ip.2) := by
  induction ps generalizing i with
  | nil => rfl
  | cons p ps ih =>
    simp only [bindCalls, List.enumFrom_cons, List.map_cons] at ih ⊢
    rw [cStr_of_no_nul p (h p (List.mem_cons_self _ _)),
      ih (i + 1) (fun q hq => h q (List.mem_cons_of_mem _ hq))]

theorem bindCalls_nil (i : Nat) : bindCalls stmt i [] = [] := rfl

theorem bindCalls_cons (i : Nat) (p : String) (ps : List String) :
    bindCalls stmt i (p :: ps)
      = Call.sqlite3_bind_text stmt (i + 1) (cStr p) :: bindCalls stmt (i + 1) ps := by
  simp [bindCalls, List.enumFrom_cons]

theorem bindLoop_of_succeed (i : Nat) (ps : List String) (w : World E)
    (h : bindsSucceed api stmt i ps w.eng = true) :
    bindLoop api stmt i ps w
      = (SQLITE_OK, ⟨afterBinds api stmt i ps w.eng, w.trace ++ bindCalls stmt i ps⟩) := by
  induction ps generalizing i w with
  | nil => simp [bindLoop, afterBinds, bindCalls_nil]
  | cons p ps ih =>
    simp only [bindsSucceed, Bool.and_eq_true, decide_eq_true_eq] at h
    simp only [bindLoop, h.1, ne_eq, not_true_eq_false, if_false]
    rw [ih (i + 1) _ (by simpa [World.call] using h.2)]
    simp [World.call, afterBinds, bindCalls_cons]

theorem bindLoop_of_fail (i j : Nat) (ps : List String) (p : String) (w : World E)
    (hj : ps[j]? = some p)
    (hpre : bindsSucceed api stmt i (ps.take j) w.eng = true)
    (hrc : (api.sqlite3_bind_text stmt (i + j + 1) (cStr p)
      (afterBinds api stmt i (ps.take j) w.eng)).rc ≠ SQLITE_OK) :
    bindLoop api stmt i ps w
      = ((api.sqlite3_bind_text stmt (i + j + 1) (cStr p)
            (afterBinds api stmt i (ps.take j) w.eng)).rc,
          ⟨(api.sqlite3_bind_text stmt (i + j + 1) (cStr p)
              (afterBinds api stmt i (ps.take j) w.eng)).eng,
            w.trace ++ bindCalls stmt i (ps.take (j + 1))⟩) := by
  induction ps generalizing i j w with
  | nil => simp at hj
  | cons q qs ih =>
    cases j with
    | zero =>
      simp only [List.getElem?_cons_zero, Option.some.injEq] at hj
      subst hj
      simp only [List.take_zero, afterBinds, Nat.add_zero] at hrc ⊢
      simp [bindLoop, hrc, World.call, bindCalls_cons, bindCalls_nil]
    | succ j =>
      simp only [List.getElem?_cons_succ] at hj
      simp only [List.take_succ_cons, bindsSucceed, Bool.and_eq_true, decide_eq_true_eq,
        afterBinds] at hpre hrc ⊢
      have h3 : i + (j + 1) + 1 = i + 1 + j + 1 := by omega
      rw [h3] at hrc ⊢
      simp only [bindLoop, hpre.1, ne_eq, not_true_eq_false, if_false]
      rw [ih (i + 1) j _ hj (by simpa [World.call] using hpre.2)
        (by simpa [World.call] using hrc)]
      simp [World.call, bindCalls_cons]

theorem bindLoop_status (i : Nat) (ps : List String) (w : World E) :
    (bindLoop api stmt i ps w).1 = SQLITE_OK ↔ bindsSucceed api stmt i ps w.eng = true := by
  induction ps generalizing i w with
  | nil => simp [bindLoop, bindsSucceed]
  | cons p ps ih =>
    simp only [bindLoop, bindsSucceed, Bool.and_eq_true, decide_eq_true_eq]
    by_cases hrc : (api.sqlite3_bind_text stmt (i + 1) (cStr p) w.eng).rc = SQLITE_OK
    · simp only [hrc, ne_eq, not_true_eq_false, if_false, true_and]
      rw [ih]
      simp [World.call]
    · simp [hrc]

theorem bindsSucceed_length_le (k i : Nat) (ps : List String) (e : E)
    (hk : ∀ pos value e, k < pos → (api.sqlite3_bind_text stmt pos value e).rc ≠ SQLITE_OK)
    (h : bindsSucceed api stmt i ps e = true) : ps = [] ∨ i + ps.length ≤ k := by
  induction ps generalizing i e with
  | nil => exact Or.inl rfl
  | cons p ps ih =>
    simp only [bindsSucceed, Bool.and_eq_true, decide_eq_true_eq] at h
    right
    have hpos : i + 1 ≤ k := by
      by_contra hlt
      exact hk (i + 1) (cStr p) e (by omega) h.1
    rcases ih (i + 1) _ h.2 with hnil | hle
    · simp [hnil, hpos]
    · simp only [List.length_cons]
      omega

end BindLoop

/-! ## Claim C4 -/

section ExecuteWithParams
variable {E : Type} (api : Engine E)

/-- `executeWithParams` once the connection is open and preparation succeeded,
when every bind succeeds. -/
theorem executeWithParams_of_binds_ok {d : Database} (w : World E) (sql : String)
    (params : List String) (stmt : StmtHandle) (e1 : E) (hd : d.IsOpened)
    (hp : api.sqlite3_prepare_v2 d.db (cStr sql) w.eng = ⟨SQLITE_OK, stmt, e1⟩)
    (hb : bindsSucceed api stmt 0 params e1 = true) :
    Database.executeWithParams api d sql params w
      = if (api.sqlite3_step stmt (afterBinds api stmt 0 params e1)).rc ≠ SQLITE_DONE then
          ⟨.error (executionError (api.sqlite3_errmsg d.db (api.sqlite3_finalize stmt
              (api.sqlite3_step stmt (afterBinds api stmt 0 params e1)).eng))), d,
            ⟨api.sqlite3_finalize stmt
                (api.sqlite3_step stmt (afterBinds api stmt 0 params e1)).eng,
              w.trace ++ Call.sqlite3_prepare_v2 d.db (cStr sql) :: (bindCalls stmt 0 params ++
                [Call.sqlite3_step stmt, Call.sqlite3_finalize stmt,
                  Call.sqlite3_errmsg d.db])⟩⟩
        else
          ⟨.ok (), d,
            ⟨api.sqlite3_finalize stmt
                (api.sqlite3_step stmt (afterBinds api stmt 0 params e1)).eng,
              w.trace ++ Call.sqlite3_prepare_v2 d.db (cStr sql) :: (bindCalls stmt 0 params ++
                [Call.sqlite3_step stmt, Call.sqlite3_finalize stmt])⟩⟩ := by
  have hb2 := bindLoop_of_succeed api stmt 0 params
    (w.call (Call.sqlite3_prepare_v2 d.db (cStr sql)) e1) (by simpa [World.call] using hb)
  simp only [World.call] at hb2
  simp only [Database.executeWithParams, checkOpen_of_opened hd, hp, World.call, hb2, ne_eq,
    not_true_eq_false, if_false]
  by_cases hrc : (api.sqlite3_step stmt (afterBinds api stmt 0 params e1)).rc = SQLITE_DONE
  · simp [hrc]
  · simp [hrc, executionError]

/-- `executeWithParams` once the connection is open and preparation succeeded,
when the bind of `params[j]` is the first to fail. -/
theorem executeWithParams_of_bind_fail {d : Database} (w : World E) (sql : String)
    (params : List String) (stmt : StmtHandle) (e1 : E) (hd : d.IsOpened)
    (hp : api.sqlite3_prepare_v2 d.db (cStr sql) w.eng = ⟨SQLITE_OK, stmt, e1⟩)
    (j : Nat) (p : String) (hj : params[j]? = some p)
    (hpre : bindsSucceed api stmt 0 (params.take j) e1 = true)
    (hrc : (api.sqlite3_bind_text stmt (j + 1) (cStr p)
      (afterBinds api stmt 0 (params.take j) e1)).rc ≠ SQLITE_OK) :
    Database.executeWithParams api d sql params w
      = ⟨.error (bindError (api.sqlite3_errmsg d.db (api.sqlite3_finalize stmt
            (api.sqlite3_bind_text stmt (j + 1) (cStr p)
              (afterBinds api stmt 0 (params.take j) e1)).eng))), d,
          ⟨api.sqlite3_finalize stmt (api.sqlite3_bind_text stmt (j + 1) (cStr p)
              (afterBinds api stmt 0 (params.take j) e1)).eng,
            w.trace ++ Call.sqlite3_prepare_v2 d.db (cStr sql) ::
              (bindCalls stmt 0 (params.take (j + 1)) ++
                [Call.sqlite3_finalize stmt, Call.sqlite3_errmsg d.db])⟩⟩ := by
  have hb2 := bindLoop_of_fail api stmt 0 j params p
    (w.call (Call.sqlite3_prepare_v2 d.db (cStr sql)) e1) hj
    (by simpa [World.call] using hpre) (by simpa [World.call] using hrc)
  simp only [Nat.zero_add, World.call] at hb2
  simp only [Database.executeWithParams, checkOpen_of_opened hd, hp, World.call, hb2, ne_eq,
    not_true_eq_false, if_false]
  simp [hrc, bindError]

/-- `executeWithParams` fails with a bind error whenever some bind fails. -/
theorem executeWithParams_of_not_binds_ok {d : Database} (w : World E) (sql : String)
    (params : List String) (stmt : StmtHandle) (e1 : E) (hd : d.IsOpened)
    (hp : api.sqlite3_prepare_v2 d.db (cStr sql) w.eng = ⟨SQLITE_OK, stmt, e1⟩)
    (hb : bindsSucceed api stmt 0 params e1 = false) :
    ∃ msg, (Database.executeWithParams api d sql params w).out = .error (bindError msg) := by
  have hne : (bindLoop api stmt 0 params
      (w.call (Call.sqlite3_prepare_v2 d.db (cStr sql)) e1)).1 ≠ SQLITE_OK := by
    intro h
    rw [bindLoop_status] at h
    simp [World.call, hb] at h
  simp only [Database.executeWithParams, checkOpen_of_opened hd, hp, ne_eq,
    not_true_eq_false, if_false]
  rw [if_pos hne]
  exact ⟨_, rfl⟩

end ExecuteWithParams

/-- C4 as stated fails: for a parameter with a NUL character in it ("Al", NUL,
"ice") `executeWithParams` binds "Al" at position 1, not the value p[0]. -/
theorem executeWithParams_binds_up_to_nul :
    (Database.executeWithParams simEngine dbOpen insertSql [nulParam] (world0 sim0)).out
      = .ok () ∧
    (Database.executeWithParams simEngine dbOpen insertSql [nulParam]
        (world0 sim0)).world.trace
      = [Call.sqlite3_prepare_v2 (some 1) insertSql,
          Call.sqlite3_bind_text (some 7) 1 "Al",
          Call.sqlite3_step (some 7), Call.sqlite3_finalize (some 7)] ∧
    (Database.executeWithParams simEngine dbOpen insertSql [nulParam]
        (world0 sim0)).world.trace
      ≠ Call.sqlite3_prepare_v2 (some 1) insertSql ::
          (bindCallsWhole (some 7) 0 [nulParam] ++
            [Call.sqlite3_step (some 7), Call.sqlite3_finalize (some 7)]) ∧
    ¬ Call.sqlite3_bind_text (some 7) 1 nulParam ∈
      (Database.executeWithParams simEngine dbOpen insertSql [nulParam]
        (world0 sim0)).world.trace := by
  refine ⟨by decide, by decide, by decide, by decide⟩

/-- C4 amended: on an open connection with SQL that prepares successfully,
`executeWithParams` binds, for i = 0, 1, ... in that order, the C string of
`params[i]` (its characters before the first NUL; the whole of `params[i]` when
it has no NUL) as text at position `i + 1`, and stops at the first bind that
fails; when all N binds succeeded it steps the statement exactly once.  It
returns normally if and only if every bind reported success and that one step
reported `SQLITE_DONE`; when the step reports a row or an error it throws the
execution error, and when a bind fails it throws the bind error without
stepping. -/
theorem executeWithParams_binds_cstr_then_steps {E : Type} (api : Engine E) (d : Database)
    (w : World E) (sql : String) (params : List String) (stmt : StmtHandle) (e1 : E)
    (hd : d.isOpen = true ∧ d.db ≠ none)
    (hp : api.sqlite3_prepare_v2 d.db (cStr sql) w.eng = ⟨SQLITE_OK, stmt, e1⟩) :
    (bindsSucceed api stmt 0 params e1 = true →
      (Database.executeWithParams api d sql params w).world.trace
        = w.trace ++ Call.sqlite3_prepare_v2 d.db (cStr sql) ::
            (bindCalls stmt 0 params ++
              Call.sqlite3_step stmt :: Call.sqlite3_finalize stmt ::
                (if (api.sqlite3_step stmt (afterBinds api stmt 0 params e1)).rc
                    ≠ SQLITE_DONE then [Call.sqlite3_errmsg d.db] else [])) ∧
      ((api.sqlite3_step stmt (afterBinds api stmt 0 params e1)).rc ≠ SQLITE_DONE →
        ∃ msg, (Database.executeWithParams api d sql params w).out
          = .error (.DatabaseException ("Execution failed: " ++ msg)))) ∧
    (∀ j p, params[j]? = some p →
      bindsSucceed api stmt 0 (params.take j) e1 = true →
      (api.sqlite3_bind_text stmt (j + 1) (cStr p)
        (afterBinds api stmt 0 (params.take j) e1)).rc ≠ SQLITE_OK →
      (Database.executeWithParams api d sql params w).world.trace
        = w.trace ++ Call.sqlite3_prepare_v2 d.db (cStr sql) ::
            (bindCalls stmt 0 (params.take (j + 1)) ++
              [Call.sqlite3_finalize stmt, Call.sqlite3_errmsg d.db]) ∧
      ∃ msg, (Database.executeWithParams api d sql params w).out
        = .error (.DatabaseException ("Failed to bind parameter: " ++ msg))) ∧
    ((Database.executeWithParams api d sql params w).out = .ok () ↔
      bindsSucceed api stmt 0 params e1 = true ∧
        (api.sqlite3_step stmt (afterBinds api stmt 0 params e1)).rc = SQLITE_DONE) ∧
    (∀ ps : List String,
      bindCalls stmt 0 ps
        = (ps.enumFrom 0).map
            (fun ip => Call.sqlite3_bind_text stmt (ip.1 + 1)
              (String.mk (ip.2.data.takeWhile (fun c => c.toNat != 0))))) ∧
    ((∀ p ∈ params, ∀ c ∈ p.data, c.toNat ≠ 0) →
      bindCalls stmt 0 params
        = (params.enumFrom 0).map
            (fun ip => Call.sqlite3_bind_text stmt (ip.1 + 1) ip.2)) := by
  have ho : d.IsOpened := hd
  refine ⟨fun hb => ?_, fun j p hj hpre hrc => ?_, ?_, fun ps => rfl,
    fun hnul => bindCalls_of_no_nul stmt 0 params hnul⟩
  · rw [executeWithParams_of_binds_ok api w sql params stmt e1 ho hp hb]
    refine ⟨?_, fun hrc => ?_⟩
    · split <;> simp
    · rw [if_pos hrc]
      exact ⟨_, rfl⟩
  · rw [executeWithParams_of_bind_fail api w sql params stmt e1 ho hp j p hj hpre hrc]
    exact ⟨rfl, _, rfl⟩
  · constructor
    · intro hok
      cases hb : bindsSucceed api stmt 0 params e1 with
      | false =>
        obtain ⟨msg, hmsg⟩ := executeWithParams_of_not_binds_ok api w sql params stmt e1 ho hp hb
        rw [hmsg] at hok
        cases hok
      | true =>
        refine ⟨rfl, ?_⟩
        by_contra hrc
        rw [executeWithParams_of_binds_ok api w sql params stmt e1 ho hp hb, if_pos hrc] at hok
        cases hok
    · rintro ⟨hb, hrc⟩
      rw [executeWithParams_of_binds_ok api w sql params stmt e1 ho hp hb,
        if_neg (by simpa using hrc)]

/-- Witness for the amended C4: three parameters for the three placeholders of
the scripted engine are bound and the call returns normally. -/
theorem executeWithParams_binds_cstr_then_steps_witness :
    (dbOpen.isOpen = true ∧ dbOpen.db ≠ none) ∧
    simEngine.sqlite3_prepare_v2 dbOpen.db (cStr insertSql) (world0 sim0).eng
      = ⟨SQLITE_OK, some 7, sim0⟩ ∧
    bindsSucceed simEngine (some 7) 0 ["Alice", "20", "A"] sim0 = true ∧
    (Database.executeWithParams simEngine dbOpen insertSql ["Alice", "20", "A"]
      (world0 sim0)).out = .ok () :=
  ⟨⟨rfl, by decide⟩, rfl, by decide,
    ((executeWithParams_binds_cstr_then_steps simEngine dbOpen (world0 sim0) insertSql
      ["Alice", "20", "A"] (some 7) sim0 ⟨rfl, by decide⟩ rfl).2.2.1).2
      ⟨by decide, by decide⟩⟩

/-! ## Claim C5 -/

theorem bindsSucceed_of_hasPlaceholders {E : Type} (api : Engine E) (stmt : StmtHandle)
    (k : Nat) (hk : HasPlaceholders api stmt k) (i : Nat) (ps : List String) (e : E)
    (hle : i + ps.length ≤ k) : bindsSucceed api stmt i ps e = true := by
  induction ps generalizing i e with
  | nil => rfl
  | cons p ps ih =>
    simp only [List.length_cons] at hle
    simp only [bindsSucceed, Bool.and_eq_true, decide_eq_true_eq]
    exact ⟨(hk (i + 1) (cStr p) e).2 ⟨by omega, by omega⟩, ih (i + 1) _ (by omega)⟩

theorem simEngine_hasPlaceholders (stmt : StmtHandle) : HasPlaceholders simEngine stmt 3 := by
  intro pos value e
  simp only [simEngine]
  split
  · simpa using ‹1 ≤ pos ∧ pos ≤ 3›
  · rename_i h
    constructor
    · intro h25
      exact absurd h25 (by decide)
    · intro hpos
      exact absurd hpos h

/-- C5 as stated fails: the statement has three placeholders, one parameter is
supplied, and `executeWithParams` returns normally after binding position 1
only. -/
theorem executeWithParams_too_few_params_accepted :
    HasPlaceholders simEngine (some 7) 3 ∧
    simEngine.sqlite3_prepare_v2 dbOpen.db insertSql sim0 = ⟨SQLITE_OK, some 7, sim0⟩ ∧
    ["Bob"].length ≠ 3 ∧
    (Database.executeWithParams simEngine dbOpen insertSql ["Bob"] (world0 sim0)).out
      = .ok () ∧
    (Database.executeWithParams simEngine dbOpen insertSql ["Bob"] (world0 sim0)).world.trace
      = [Call.sqlite3_prepare_v2 (some 1) insertSql,
          Call.sqlite3_bind_text (some 7) 1 "Bob",
          Call.sqlite3_step (some 7), Call.sqlite3_finalize (some 7)] :=
  ⟨simEngine_hasPlaceholders _, rfl, by decide, by decide, by decide⟩

/-- C5 amended: let the statement have `k` positional placeholders.  With more
than `k` parameters `executeWithParams` binds positions 1..k, fails on position
k + 1 and throws the bind error without stepping.  With fewer than `k`
parameters the wrapper makes no count check: it binds positions 1..N, steps
once, and returns normally exactly when that step reports `SQLITE_DONE`,
leaving the placeholders N+1..k unbound. -/
theorem executeWithParams_param_count {E : Type} (api : Engine E) (d : Database)
    (w : World E) (sql : String) (params : List String) (stmt : StmtHandle) (e1 : E)
    (k : Nat) (hd : d.isOpen = true ∧ d.db ≠ none)
    (hp : api.sqlite3_prepare_v2 d.db (cStr sql) w.eng = ⟨SQLITE_OK, stmt, e1⟩)
    (hk : HasPlaceholders api stmt k) :
    (k < params.length →
      (Database.executeWithParams api d sql params w).world.trace
        = w.trace ++ Call.sqlite3_prepare_v2 d.db (cStr sql) ::
            (bindCalls stmt 0 (params.take (k + 1)) ++
              [Call.sqlite3_finalize stmt, Call.sqlite3_errmsg d.db]) ∧
      ∃ msg, (Database.executeWithParams api d sql params w).out
        = .error (.DatabaseException ("Failed to bind parameter: " ++ msg))) ∧
    (params.length < k →
      (Database.executeWithParams api d sql params w).world.trace
        = w.trace ++ Call.sqlite3_prepare_v2 d.db (cStr sql) ::
            (bindCalls stmt 0 params ++
              Call.sqlite3_step stmt :: Call.sqlite3_finalize stmt ::
                (if (api.sqlite3_step stmt (afterBinds api stmt 0 params e1)).rc
                    ≠ SQLITE_DONE then [Call.sqlite3_errmsg d.db] else [])) ∧
      ((Database.executeWithParams api d sql params w).out = .ok () ↔
        (api.sqlite3_step stmt (afterBinds api stmt 0 params e1)).rc = SQLITE_DONE)) := by
  have ho : d.IsOpened := hd
  constructor
  · intro hlt
    obtain ⟨p, hpk⟩ : ∃ p, params[k]? = some p := by
      rw [List.getElem?_eq_getElem hlt]
      exact ⟨_, rfl⟩
    have hpre : bindsSucceed api stmt 0 (params.take k) e1 = true :=
      bindsSucceed_of_hasPlaceholders api stmt k hk 0 _ e1 (by simp)
    have hrc : (api.sqlite3_bind_text stmt (k + 1) (cStr p)
        (afterBinds api stmt 0 (params.take k) e1)).rc ≠ SQLITE_OK := by
      intro h
      have := ((hk (k + 1) (cStr p) _).1 h).2
      omega
    rw [executeWithParams_of_bind_fail api w sql params stmt e1 ho hp k p hpk hpre hrc]
    exact ⟨rfl, _, rfl⟩
  · intro hlt
    have hb : bindsSucceed api stmt 0 params e1 = true :=
      bindsSucceed_of_hasPlaceholders api stmt k hk 0 _ e1 (by omega)
    rw [executeWithParams_of_binds_ok api w sql params stmt e1 ho hp hb]
    by_cases hrc : (api.sqlite3_step stmt (afterBinds api stmt 0 params e1)).rc = SQLITE_DONE
    · simp [hrc]
    · simp [hrc]

/-- Witness for the amended C5: four parameters for three placeholders end in
the bind error. -/
theorem executeWithParams_param_count_witness :
    (dbOpen.isOpen = true ∧ dbOpen.db ≠ none) ∧
    simEngine.sqlite3_prepare_v2 dbOpen.db (cStr insertSql) (world0 sim0).eng
      = ⟨SQLITE_OK, some 7, sim0⟩ ∧
    HasPlaceholders simEngine (some 7) 3 ∧
    3 < ["Bob", "21", "B", "extra"].length ∧
    ∃ msg, (Database.executeWithParams simEngine dbOpen insertSql
      ["Bob", "21", "B", "extra"] (world0 sim0)).out
        = .error (.DatabaseException ("Failed to bind parameter: " ++ msg)) :=
  ⟨⟨rfl, by decide⟩, rfl, simEngine_hasPlaceholders _, by decide,
    ((executeWithParams_param_count simEngine dbOpen (world0 sim0) insertSql
      ["Bob", "21", "B", "extra"] (some 7) sim0 3 ⟨rfl, by decide⟩ rfl
      (simEngine_hasPlaceholders _)).1 (by decide)).2⟩

/-! ## The row loop -/

section RowLoop
variable {E : Type} (api : Engine E) (cb : Callback E) (stmt : StmtHandle)

theorem rowLoop_of_yields (final : Int) (hfinal : final ≠ SQLITE_ROW) (r : Nat) (fuel : Nat)
    (w : World E) (hrows : yieldsRowsThen api cb stmt final r w.eng = true)
    (hfuel : r + 1 ≤ fuel) :
    rowLoop api cb stmt fuel w
      = (some (.status final),
          ⟨(api.sqlite3_step stmt (afterRows api cb stmt r w.eng)).eng,
            w.trace ++ (rowCalls stmt r ++ [Call.sqlite3_step stmt])⟩) := by
  induction r generalizing fuel w with
  | zero =>
    obtain ⟨f, rfl⟩ : ∃ f, fuel = f + 1 := ⟨fuel - 1, by omega⟩
    simp only [yieldsRowsThen, decide_eq_true_eq] at hrows
    simp [rowLoop, hrows, hfinal, World.call, afterRows, rowCalls]
  | succ r ih =>
    obtain ⟨f, rfl⟩ : ∃ f, fuel = f + 1 := ⟨fuel - 1, by omega⟩
    simp only [yieldsRowsThen, Bool.and_eq_true, decide_eq_true_eq,
      Option.isNone_iff_eq_none] at hrows
    obtain ⟨hrow, hthrown, hrest⟩ := hrows
    simp only [rowLoop, hrow, if_true, World.call, hthrown]
    rw [ih f _ (by simpa using hrest) (by omega)]
    simp [afterRows, rowCalls]

theorem rowCalls_count_callback (r : Nat) :
    (rowCalls stmt r).count (Call.callback stmt) = r := by
  induction r with
  | zero => rfl
  | succ r ih => simp [rowCalls, List.count_cons, ih]

theorem rowCalls_count_step (r : Nat) :
    (rowCalls stmt r).count (Call.sqlite3_step stmt) = r := by
  induction r with
  | zero => rfl
  | succ r ih => simp [rowCalls, List.count_cons, ih]

theorem bindCalls_count_callback (i : Nat) (ps : List String) :
    (bindCalls stmt i ps).count (Call.callback stmt) = 0 := by
  induction ps generalizing i with
  | nil => rfl
  | cons p ps ih => simp [bindCalls_cons, List.count_cons, ih]

theorem bindCalls_count_step (i : Nat) (ps : List String) :
    (bindCalls stmt i ps).count (Call.sqlite3_step stmt) = 0 := by
  induction ps generalizing i with
  | nil => rfl
  | cons p ps ih => simp [bindCalls_cons, List.count_cons, ih]

/-- The shared tail of `query` / `queryWithParams` when the statement yields
`r` rows and then the status `final`. -/
theorem finishQuery_of_yields (d : Database) (final : Int) (hfinal : final ≠ SQLITE_ROW)
    (r : Nat) (fuel : Nat) (w : World E)
    (hrows : yieldsRowsThen api cb stmt final r w.eng = true) (hfuel : r + 1 ≤ fuel) :
    finishQuery api d cb stmt fuel w
      = if final ≠ SQLITE_DONE then
          ⟨some (.error (queryError (api.sqlite3_errmsg d.db (api.sqlite3_finalize stmt
              (api.sqlite3_step stmt (afterRows api cb stmt r w.eng)).eng)))), d,
            ⟨api.sqlite3_finalize stmt
                (api.sqlite3_step stmt (afterRows api cb stmt r w.eng)).eng,
              w.trace ++ (rowCalls stmt r ++ [Call.sqlite3_step stmt,
                Call.sqlite3_finalize stmt, Call.sqlite3_errmsg d.db])⟩⟩
        else
          ⟨some (.ok ()), d,
            ⟨api.sqlite3_finalize stmt
                (api.sqlite3_step stmt (afterRows api cb stmt r w.eng)).eng,
              w.trace ++ (rowCalls stmt r ++ [Call.sqlite3_step stmt,
                Call.sqlite3_finalize stmt])⟩⟩ := by
  simp only [finishQuery, rowLoop_of_yields api cb stmt final hfinal r fuel w hrows hfuel,
    World.call]
  by_cases hd : final = SQLITE_DONE
  · simp [hd]
  · simp [hd, queryError]

end RowLoop

/-! ## Claim C8 -/

section Query
variable {E : Type} (api : Engine E)

theorem query_of_yields {d : Database} (w : World E) (sql : String) (cb : Callback E)
    (stmt : StmtHandle) (e1 : E) (final : Int) (r fuel : Nat) (hd : d.IsOpened)
    (hp : api.sqlite3_prepare_v2 d.db (cStr sql) w.eng = ⟨SQLITE_OK, stmt, e1⟩)
    (hfinal : final ≠ SQLITE_ROW) (hfuel : r + 1 ≤ fuel)
    (hrows : yieldsRowsThen api cb stmt final r e1 = true) :
    Database.query api d sql cb fuel w
      = finishQuery api d cb stmt (r + 1) ⟨e1, w.trace ++ [Call.sqlite3_prepare_v2 d.db (cStr sql)]⟩ := by
  simp only [Database.query, checkOpen_of_opened hd, hp, ne_eq, not_true_eq_false, if_false,
    World.call]
  rw [finishQuery_of_yields api cb stmt d final hfinal r fuel _ hrows hfuel,
    finishQuery_of_yields api cb stmt d final hfinal r (r + 1) _ hrows (le_refl _)]

theorem queryWithParams_of_yields {d : Database} (w : World E) (sql : String)
    (params : List String) (cb : Callback E)
    (stmt : StmtHandle) (e1 : E) (final : Int) (r fuel : Nat) (hd : d.IsOpened)
    (hp : api.sqlite3_prepare_v2 d.db (cStr sql) w.eng = ⟨SQLITE_OK, stmt, e1⟩)
    (hfinal : final ≠ SQLITE_ROW) (hfuel : r + 1 ≤ fuel)
    (hb : bindsSucceed api stmt 0 params e1 = true)
    (hrows : yieldsRowsThen api cb stmt final r (afterBinds api stmt 0 params e1) = true) :
    Database.queryWithParams api d sql params cb fuel w
      = finishQuery api d cb stmt (r + 1)
          ⟨afterBinds api stmt 0 params e1,
            w.trace ++ [Call.sqlite3_prepare_v2 d.db (cStr sql)] ++ bindCalls stmt 0 params⟩ := by
  have hb2 := bindLoop_of_succeed api stmt 0 params
    (w.call (Call.sqlite3_prepare_v2 d.db (cStr sql)) e1) (by simpa [World.call] using hb)
  simp only [World.call] at hb2
  simp only [Database.queryWithParams, checkOpen_of_opened hd, hp, ne_eq, not_true_eq_false,
    if_false, World.call, hb2]
  rw [finishQuery_of_yields api cb stmt d final hfinal r fuel _ hrows hfuel,
    finishQuery_of_yields api cb stmt d final hfinal r (r + 1) _ hrows (le_refl _)]

end Query

/-- C8: on an open connection with SQL that prepares successfully, if stepping
the statement yields `r` rows and then a status `final` other than a row, then
`query` (and `queryWithParams` once all its binds succeeded), given at least
`r + 1` loop iterations, invokes the callback exactly `r` times, each time right
after the step that produced the row, steps exactly `r + 1` times, finalizes,
and returns normally when `final` is `SQLITE_DONE` (also for `r = 0`) and throws
the query error when `final` is an error status. -/
theorem query_callback_once_per_row {E : Type} (api : Engine E) (d : Database) (w : World E)
    (sql : String) (cb : Callback E) (stmt : StmtHandle) (e1 : E) (final : Int)
    (r fuel : Nat) (hd : d.isOpen = true ∧ d.db ≠ none)
    (hp : api.sqlite3_prepare_v2 d.db (cStr sql) w.eng = ⟨SQLITE_OK, stmt, e1⟩)
    (hfinal : final ≠ SQLITE_ROW) (hfuel : r + 1 ≤ fuel) :
    (yieldsRowsThen api cb stmt final r e1 = true →
      (Database.query api d sql cb fuel w).world.trace
        = w.trace ++ Call.sqlite3_prepare_v2 d.db (cStr sql) ::
            (rowCalls stmt r ++ Call.sqlite3_step stmt :: Call.sqlite3_finalize stmt ::
              (if final ≠ SQLITE_DONE then [Call.sqlite3_errmsg d.db] else [])) ∧
      (Database.query api d sql cb fuel w).world.trace.count (Call.callback stmt)
        = w.trace.count (Call.callback stmt) + r ∧
      (Database.query api d sql cb fuel w).world.trace.count (Call.sqlite3_step stmt)
        = w.trace.count (Call.sqlite3_step stmt) + (r + 1) ∧
      (final = SQLITE_DONE → (Database.query api d sql cb fuel w).out = some (.ok ())) ∧
      (final ≠ SQLITE_DONE → ∃ msg, (Database.query api d sql cb fuel w).out
        = some (.error (.DatabaseException ("Query execution failed: " ++ msg))))) ∧
    (∀ params : List String, bindsSucceed api stmt 0 params e1 = true →
      yieldsRowsThen api cb stmt final r (afterBinds api stmt 0 params e1) = true →
      (Database.queryWithParams api d sql params cb fuel w).world.trace
        = w.trace ++ Call.sqlite3_prepare_v2 d.db (cStr sql) ::
            (bindCalls stmt 0 params ++
              (rowCalls stmt r ++ Call.sqlite3_step stmt :: Call.sqlite3_finalize stmt ::
                (if final ≠ SQLITE_DONE then [Call.sqlite3_errmsg d.db] else []))) ∧
      (Database.queryWithParams api d sql params cb fuel w).world.trace.count
          (Call.callback stmt)
        = w.trace.count (Call.callback stmt) + r ∧
      (Database.queryWithParams api d sql params cb fuel w).world.trace.count
          (Call.sqlite3_step stmt)
        = w.trace.count (Call.sqlite3_step stmt) + (r + 1) ∧
      (final = SQLITE_DONE →
        (Database.queryWithParams api d sql params cb fuel w).out = some (.ok ())) ∧
      (final ≠ SQLITE_DONE → ∃ msg,
        (Database.queryWithParams api d sql params cb fuel w).out
          = some (.error (.DatabaseException ("Query execution failed: " ++ msg))))) := by
  have ho : d.IsOpened := hd
  constructor
  · intro hrows
    rw [query_of_yields api w sql cb stmt e1 final r fuel ho hp hfinal hfuel hrows,
      finishQuery_of_yields api cb stmt d final hfinal r (r + 1) _ hrows (le_refl _)]
    by_cases hdone : final = SQLITE_DONE
    · simp [hdone, List.count_cons, rowCalls_count_callback, rowCalls_count_step]
    · simp [hdone, List.count_cons, rowCalls_count_callback, rowCalls_count_step, queryError]
  · intro params hb hrows
    rw [queryWithParams_of_yields api w sql params cb stmt e1 final r fuel ho hp hfinal hfuel
        hb hrows,
      finishQuery_of_yields api cb stmt d final hfinal r (r + 1) _ hrows (le_refl _)]
    by_cases hdone : final = SQLITE_DONE
    · simp [hdone, List.count_cons, rowCalls_count_callback, rowCalls_count_step,
        bindCalls_count_callback, bindCalls_count_step]
    · simp [hdone, List.count_cons, rowCalls_count_callback, rowCalls_count_step,
        bindCalls_count_callback, bindCalls_count_step, queryError]

/-- Witness for C8: two rows and then done on the scripted engine. -/
theorem query_callback_once_per_row_witness :
    (dbOpen.isOpen = true ∧ dbOpen.db ≠ none) ∧
    simEngine.sqlite3_prepare_v2 dbOpen.db (cStr "SELECT * FROM students;")
        (world0 { sim0 with steps := [SQLITE_ROW, SQLITE_ROW] }).eng
      = ⟨SQLITE_OK, some 7, { sim0 with steps := [SQLITE_ROW, SQLITE_ROW] }⟩ ∧
    SQLITE_DONE ≠ SQLITE_ROW ∧ 2 + 1 ≤ 5 ∧
    yieldsRowsThen simEngine cbOk (some 7) SQLITE_DONE 2
      { sim0 with steps := [SQLITE_ROW, SQLITE_ROW] } = true ∧
    (Database.query simEngine dbOpen "SELECT * FROM students;" cbOk 5
      (world0 { sim0 with steps := [SQLITE_ROW, SQLITE_ROW] })).out = some (.ok ()) :=
  ⟨⟨rfl, by decide⟩, rfl, by decide, by decide, by decide,
    ((query_callback_once_per_row simEngine dbOpen
      (world0 { sim0 with steps := [SQLITE_ROW, SQLITE_ROW] }) "SELECT * FROM students;"
      cbOk (some 7) { sim0 with steps := [SQLITE_ROW, SQLITE_ROW] } SQLITE_DONE 2 5
      ⟨rfl, by decide⟩ rfl (by decide) (by decide)).1 (by decide)).2.2.2.1 rfl⟩

/-! ## Claim C2 -/

/-- C2 fails on the path where the row callback throws: `query` on an open
connection, one row, a callback that throws on it.  The exception leaves
`query` after prepare, step and the callback; `sqlite3_finalize` is never
called on the prepared statement. -/
theorem query_callback_throw_skips_finalize :
    (Database.query simEngine dbOpen "SELECT * FROM students;" cbThrow 5
      (world0 { sim0 with steps := [SQLITE_ROW] })).out
      = some (.error (.fromCallback "boom")) ∧
    (Database.query simEngine dbOpen "SELECT * FROM students;" cbThrow 5
      (world0 { sim0 with steps := [SQLITE_ROW] })).world.trace
      = [Call.sqlite3_prepare_v2 (some 1) "SELECT * FROM students;",
          Call.sqlite3_step (some 7), Call.callback (some 7)] ∧
    (Database.query simEngine dbOpen "SELECT * FROM students;" cbThrow 5
      (world0 { sim0 with steps := [SQLITE_ROW] })).world.trace.count
        (Call.sqlite3_finalize (some 7)) = 0 ∧
    (Database.queryWithParams simEngine dbOpen "SELECT * FROM students WHERE name = ?;"
      ["Alice"] cbThrow 5 (world0 { sim0 with steps := [SQLITE_ROW] })).world.trace.count
        (Call.sqlite3_finalize (some 7)) = 0 := by
  refine ⟨by decide, by decide, by decide, by decide⟩

/-! ## How often the prepared statement is finalized -/

section Finalize
variable {E : Type} (api : Engine E)

theorem bindLoop_count_finalize (stmt s : StmtHandle) (i : Nat) (ps : List String)
    (w : World E) :
    (bindLoop api stmt i ps w).2.trace.count (Call.sqlite3_finalize s)
      = w.trace.count (Call.sqlite3_finalize s) := by
  induction ps generalizing i w with
  | nil => rfl
  | cons p ps ih =>
    simp only [bindLoop]
    split
    · simp [World.call, List.count_cons]
    · rw [ih]
      simp [World.call, List.count_cons]

theorem rowLoop_count_finalize (cb : Callback E) (stmt s : StmtHandle) (fuel : Nat)
    (w : World E) :
    (rowLoop api cb stmt fuel w).2.trace.count (Call.sqlite3_finalize s)
      = w.trace.count (Call.sqlite3_finalize s) := by
  induction fuel generalizing w with
  | zero => rfl
  | succ f ih =>
    simp only [rowLoop]
    split
    · split
      · simp [World.call, List.count_cons]
      · rw [ih]
        simp [World.call, List.count_cons]
    · simp [World.call, List.count_cons]

/-- `executeWithParams` finalizes the statement it prepared exactly once,
whether it returns, a bind fails or the step fails. -/
theorem executeWithParams_finalizes_once {d : Database} (w : World E) (sql : String)
    (params : List String) (stmt : StmtHandle) (e1 : E) (hd : d.IsOpened)
    (hp : api.sqlite3_prepare_v2 d.db (cStr sql) w.eng = ⟨SQLITE_OK, stmt, e1⟩) :
    (Database.executeWithParams api d sql params w).world.trace.count
        (Call.sqlite3_finalize stmt)
      = w.trace.count (Call.sqlite3_finalize stmt) + 1 := by
  simp only [Database.executeWithParams, checkOpen_of_opened hd, hp, ne_eq, not_true_eq_false,
    if_false]
  split
  · simp [World.call, List.count_cons, bindLoop_count_finalize]
  · split <;> simp [World.call, List.count_cons, bindLoop_count_finalize]

/-- The tail shared by `query` and `queryWithParams` finalizes the statement
exactly once when it returns or throws a `DatabaseException`, and not at all
when the exception of a row callback leaves it. -/
theorem finishQuery_count_finalize (d : Database) (cb : Callback E) (stmt : StmtHandle)
    (fuel : Nat) (w : World E) :
    ((finishQuery api d cb stmt fuel w).out = some (.ok ()) ∨
        (∃ m, (finishQuery api d cb stmt fuel w).out
          = some (.error (.DatabaseException m))) →
      (finishQuery api d cb stmt fuel w).world.trace.count (Call.sqlite3_finalize stmt)
        = w.trace.count (Call.sqlite3_finalize stmt) + 1) ∧
    ((∃ x, (finishQuery api d cb stmt fuel w).out = some (.error (.fromCallback x))) →
      (finishQuery api d cb stmt fuel w).world.trace.count (Call.sqlite3_finalize stmt)
        = w.trace.count (Call.sqlite3_finalize stmt)) := by
  simp only [finishQuery]
  split
  · simp
  · simp [rowLoop_count_finalize]
  · split <;> simp [World.call, List.count_cons, rowLoop_count_finalize]

/-- For `query`: one finalize on normal return and on a step failure, none when
the row callback throws. -/
theorem query_count_finalize {d : Database} (w : World E) (sql : String) (cb : Callback E)
    (fuel : Nat) (stmt : StmtHandle) (e1 : E) (hd : d.IsOpened)
    (hp : api.sqlite3_prepare_v2 d.db (cStr sql) w.eng = ⟨SQLITE_OK, stmt, e1⟩) :
    ((Database.query api d sql cb fuel w).out = some (.ok ()) ∨
        (∃ m, (Database.query api d sql cb fuel w).out
          = some (.error (.DatabaseException m))) →
      (Database.query api d sql cb fuel w).world.trace.count (Call.sqlite3_finalize stmt)
        = w.trace.count (Call.sqlite3_finalize stmt) + 1) ∧
    ((∃ x, (Database.query api d sql cb fuel w).out = some (.error (.fromCallback x))) →
      (Database.query api d sql cb fuel w).world.trace.count (Call.sqlite3_finalize stmt)
        = w.trace.count (Call.sqlite3_finalize stmt)) := by
  simp only [Database.query, checkOpen_of_opened hd, hp, ne_eq, not_true_eq_false, if_false]
  have h := finishQuery_count_finalize api d cb stmt fuel
    (w.call (Call.sqlite3_prepare_v2 d.db (cStr sql)) e1)
  simpa [World.call, List.count_cons] using h

end Finalize

end StudentDb
